import Mathlib

/-!
# Verification of the background-agents sandbox runtime

A shallow embedding, in Lean 4, of the core control logic of the
`background-agents` repository:

* the asynchronous Image Builder and its Callback Client
  (`packages/modal-infra/src/scheduler/image_builder.py`),
* the in-sandbox Supervisor — startup pipeline, monitoring loop,
  shutdown sequence, health prober, git-sync phase
  (`packages/sandbox-runtime/src/sandbox/entrypoint.py`), and
* the local-mount Supervisor variant
  (`packages/sandbox/sandbox/entrypoint.py`).

External effects (HTTP requests, subprocess exits, token minting,
filesystem snapshots) are modelled as explicit inputs: each model is a
pure function from the source's control state plus an oracle describing
what the outside world does at each interaction point, to the sequence
of observable actions the code performs.  Real time is abstracted to
counts of interaction rounds; recorded delays keep their numeric values.
-/

namespace BackgroundAgents

/-! ## Callback Client — `_callback_with_retry`

`image_builder.py` lines 39–93.  One logical callback delivery makes up
to `CALLBACK_MAX_RETRIES = 3` attempts.  Each attempt mints a fresh
bearer token, performs one HTTP POST, and treats any exception
(token minting included) or non-2xx response (via `raise_for_status`)
as a retriable failure.  After the failure of attempt `i`
(0-indexed) the code computes `delay = CALLBACK_BACKOFF_BASE ** (i + 1)`
and sleeps it only when `i < CALLBACK_MAX_RETRIES - 1`.
-/

/-- What the outside world does on one callback attempt: the token
issuer raises, or the HTTP POST raises a network error, or the POST
returns a response with the given status code. -/
inductive AttemptOutcome where
  | tokenErr : AttemptOutcome
  | netErr : AttemptOutcome
  | status (code : Nat) : AttemptOutcome
deriving DecidableEq, Repr

/-- `httpx.Response.raise_for_status` does not raise exactly on 2xx. -/
def attemptSucceeds : AttemptOutcome → Bool
  | .status code => 200 ≤ code && code < 300
  | _ => false

/-- Number of HTTP requests actually performed by one attempt: a token
minting failure happens before `client.post`, so no request is made. -/
def attemptPosts : AttemptOutcome → Nat
  | .tokenErr => 0
  | _ => 1

/-- Observable outcome of `_callback_with_retry`: the returned boolean,
the number of loop iterations (attempts) executed, the number of token
mints, the number of HTTP POSTs, and the list of back-off sleeps
performed (in seconds, in order). -/
structure CbResult where
  success : Bool
  attempts : Nat
  mints : Nat
  posts : Nat
  sleeps : List Nat
deriving DecidableEq, Repr

/-- The retry loop of `_callback_with_retry`.  `i` is the 0-indexed
attempt counter (`attempt` in the source), `fuel` the number of
attempts still allowed; the function is entered with `i + fuel = 3`,
mirroring `for attempt in range(CALLBACK_MAX_RETRIES)`.  `fuel = 0`
corresponds to falling off the loop and returning `False`.  The
source's `if attempt < CALLBACK_MAX_RETRIES - 1` guard on the sleep is
`fuel ≠ 1` under that invariant. -/
def cbLoop (env : Nat → AttemptOutcome) : Nat → Nat → CbResult
  | _, 0 => ⟨false, 0, 0, 0, []⟩
  | i, fuel + 1 =>
    let o := env i
    if attemptSucceeds o then
      ⟨true, 1, 1, attemptPosts o, []⟩
    else if fuel = 0 then
      ⟨false, 1, 1, attemptPosts o, []⟩
    else
      let r := cbLoop env (i + 1) fuel
      ⟨r.success, r.attempts + 1, r.mints + 1, attemptPosts o + r.posts,
        2 ^ (i + 1) :: r.sleeps⟩

/-- `_callback_with_retry` with `CALLBACK_MAX_RETRIES = 3` and
`CALLBACK_BACKOFF_BASE = 2`.  The function never raises to its caller:
every exception inside an attempt is caught by the loop's `except`
(totality of this model reflects that). -/
def callbackWithRetry (env : Nat → AttemptOutcome) : CbResult :=
  cbLoop env 0 3

/-! ## Image Builder — `build_repo_image`

`image_builder.py` lines 120–232.  Steps: (1) mint an installation
token (its own `try`, failures swallowed), (2) create the build
sandbox, (3) wait for it and raise `BuildError` on a non-zero exit,
(4) read HEAD SHA (failures swallowed, empty string), (5) snapshot the
filesystem, (6) if `callback_url` is non-empty deliver the success
payload.  Any exception escaping steps 1–6 lands in the `except`
block, which (for a non-empty `callback_url`) delivers
`{build_id, error}` to `callback_url.replace("/build-complete",
"/build-failed")`.
-/

/-- One pass of Python's `str.replace` scan over the remaining input:
at each position, if the pattern matches, emit the replacement and skip
the match, else keep one character.  `fuel` bounds the recursion; it is
always called with `fuel = length of the input`, which suffices because
each step consumes at least one input character (the pattern is
non-empty at every call site). -/
def replaceFuel (pat repl : List Char) : Nat → List Char → List Char
  | 0, s => s
  | _ + 1, [] => []
  | fuel + 1, c :: rest =>
    if pat ≠ [] ∧ pat.isPrefixOf (c :: rest) then
      repl ++ replaceFuel pat repl fuel ((c :: rest).drop pat.length)
    else
      c :: replaceFuel pat repl fuel rest

/-- Python's `str.replace(pat, repl)`: replace every non-overlapping
occurrence of `pat`, scanning left to right. -/
def pyReplace (s pat repl : String) : String :=
  ⟨replaceFuel pat.data repl.data s.data.length s.data⟩

/-- Suffix-only replacement, modelled from the spec's words: "synthesize
the failure callback URL by replacing the suffix `/build-complete` with
`/build-failed`" — i.e. rewrite the pattern only where it ends the URL,
leaving the rest of the URL unchanged.  Used solely to compare the
spec's reading against the code's `str.replace`. -/
def suffixReplaceSpec (s pat repl : String) : String :=
  if pat.data.isSuffixOf s.data then
    ⟨s.data.take (s.data.length - pat.data.length) ++ repl.data⟩
  else s

/-- What the build's external collaborators do during one
`build_repo_image` invocation. -/
structure BuildEnv where
  /-- step 1: `generate_installation_token` raises (caught and logged,
  the clone token degrades to the empty string). -/
  tokenRaises : Bool
  /-- step 2: `manager.create_build_sandbox` returns a handle or raises
  with the given message. -/
  createSandbox : Except String Unit
  /-- step 3: `handle.modal_sandbox.wait()` / `.returncode`: the build
  sandbox's exit code, or an exception while waiting. -/
  waitExit : Except String Int
  /-- step 4: `git rev-parse HEAD` inside the sandbox raises (caught in
  `_read_sandbox_head_sha`, degrades to the empty string). -/
  shaRaises : Bool
  /-- step 4: the SHA read when step 4 does not raise. -/
  shaValue : String
  /-- step 5: `snapshot_filesystem()` returns an image object id or
  raises with the given message. -/
  snapshot : Except String String
deriving Repr

/-- Body of a callback POST issued by the builder. -/
inductive CbPayload where
  | success (buildId imageId sha : String) : CbPayload
  | failure (buildId error : String) : CbPayload
deriving DecidableEq, Repr

/-- One callback delivery attempted by the builder (handed to
`_callback_with_retry`; delivery retries are modelled separately). -/
structure CbAttempt where
  url : String
  payload : CbPayload
deriving DecidableEq, Repr

/-- The `except` block of `build_repo_image`: for a non-empty
`callback_url`, deliver `{build_id, error}` to the URL obtained by
`callback_url.replace("/build-complete", "/build-failed")`. -/
def buildFailureAttempts (callbackUrl buildId err : String) : List CbAttempt :=
  if callbackUrl ≠ "" then
    [⟨pyReplace callbackUrl "/build-complete" "/build-failed", .failure buildId err⟩]
  else []

/-- `build_repo_image`: the list of callback deliveries the builder
hands to `_callback_with_retry`, in order.  Step 1's token result and
step 4's SHA only feed payload fields; steps 2, 3 and 5 can raise into
the `except` block. -/
def buildRepoImage (callbackUrl buildId : String) (env : BuildEnv) : List CbAttempt :=
  match env.createSandbox with
  | .error e => buildFailureAttempts callbackUrl buildId e
  | .ok _ =>
    match env.waitExit with
    | .error e => buildFailureAttempts callbackUrl buildId e
    | .ok exitCode =>
      if exitCode ≠ 0 then
        buildFailureAttempts callbackUrl buildId
          ("Build sandbox exited with code " ++ toString exitCode)
      else
        let baseSha := if env.shaRaises then "" else env.shaValue
        match env.snapshot with
        | .error e => buildFailureAttempts callbackUrl buildId e
        | .ok imageId =>
          if callbackUrl ≠ "" then [⟨callbackUrl, .success buildId imageId baseSha⟩]
          else []

/-- Steps 1–6 complete without raising iff the sandbox is created, exits
with code 0, and the snapshot returns an image id. -/
def buildStepsOk (env : BuildEnv) : Bool :=
  match env.createSandbox, env.waitExit, env.snapshot with
  | .ok _, .ok exitCode, .ok _ => exitCode == 0
  | _, _, _ => false

/-- Number of success-kind callback deliveries in a list. -/
def countSuccessCb (l : List CbAttempt) : Nat :=
  l.countP fun a => match a.payload with | .success _ _ _ => true | _ => false

/-- Number of failure-kind callback deliveries in a list. -/
def countFailureCb (l : List CbAttempt) : Nat :=
  l.countP fun a => match a.payload with | .failure _ _ => true | _ => false

end BackgroundAgents


namespace BackgroundAgents

/-! ## Health Prober — `SandboxSupervisor._wait_for_health`

`sandbox-runtime/src/sandbox/entrypoint.py` lines 368–389 (the local
variant, lines 197–218, has the same structure with a 60 s deadline).
The loop runs while the deadline has not expired; each round first
checks the shutdown latch (raising "Shutdown requested during startup"
if set), then issues a GET with a 2 s timeout.  A response with status
code exactly 200 returns success; `httpx.ConnectError` and every other
exception are swallowed; otherwise the loop sleeps 500 ms and retries.
Falling off the loop raises "OpenCode server failed to become healthy".
Time is abstracted to the number of poll rounds the deadline admits:
the input list holds one entry per round, and its exhaustion is the
deadline expiring. -/

/-- What one poll round observes: a response with a status code, a
connection error, or any other exception. -/
inductive PollObs where
  | resp (code : Nat) : PollObs
  | connectErr : PollObs
  | otherErr : PollObs
deriving DecidableEq, Repr

/-- One round of the health loop: the state of the shutdown latch when
the round starts, and what the GET observes. -/
structure PollRound where
  shutdownSet : Bool
  obs : PollObs
deriving DecidableEq, Repr

/-- How `_wait_for_health` ends: returns normally, raises the
shutdown-requested error, or raises the deadline-expired error. -/
inductive ProbeOutcome where
  | healthy : ProbeOutcome
  | shutdownReq : ProbeOutcome
  | deadline : ProbeOutcome
deriving DecidableEq, Repr

/-- The body's success test: a response arrived and
`resp.status_code == 200` (connection errors and other exceptions are
swallowed and the loop continues). -/
def pollHit : PollObs → Bool
  | .resp code => code == 200
  | _ => false

/-- `_wait_for_health` over a finite list of poll rounds. -/
def waitForHealth : List PollRound → ProbeOutcome
  | [] => .deadline
  | r :: rest =>
    if r.shutdownSet then .shutdownReq
    else if pollHit r.obs then .healthy
    else waitForHealth rest

/-- A 2xx status code, as the spec's success condition reads. -/
def isTwoXX : PollObs → Bool
  | .resp code => 200 ≤ code && code < 300
  | _ => false

/-! ## Workspace Preparer — `SandboxSupervisor.perform_git_sync`

`sandbox-runtime/src/sandbox/entrypoint.py` lines 123–266.  Clone
section (outside the `try`): if the repo directory is missing and no
repo is configured, latch `git_sync_complete` and return True; if the
clone subprocess exits non-zero, latch and return False.  Inside the
`try`: optionally rewrite the origin URL, `git fetch origin` (non-zero
exit returns False — note: without touching the latch), `git rebase`
(non-zero exit optionally aborts the rebase, logs, and continues),
`git rev-parse HEAD`, then latch and return True.  The `except` block
latches ("allow agent to proceed anyway") and returns False. -/

/-- External outcomes of one `perform_git_sync` call.  `Except Unit Int`
distinguishes an exception escaping the subprocess call (caught by the
surrounding `except`, which latches) from a subprocess exit code. -/
structure GitEnv where
  /-- `self.repo_path.exists()` at entry. -/
  repoExists : Bool
  /-- both `repo_owner` and `repo_name` configured. -/
  hasRepo : Bool
  /-- a GitHub token is available (enables the `remote set-url` call). -/
  hasToken : Bool
  /-- exit code of `git clone` when it runs. -/
  cloneExit : Int
  /-- `git remote set-url` raises (only reachable with a token). -/
  setUrlRaises : Bool
  /-- `git fetch origin`: exception or exit code. -/
  fetch : Except Unit Int
  /-- `git rebase origin/<branch>` (with its conditional abort):
  exception or exit code. -/
  rebase : Except Unit Int
  /-- `git rev-parse HEAD`: exception or success. -/
  revparse : Except Unit Unit
deriving Repr

/-- Result of `perform_git_sync`: whether the `git_sync_complete` latch
was set before returning, and the returned boolean. -/
structure GitSyncResult where
  latched : Bool
  ok : Bool
deriving DecidableEq, Repr

/-- `perform_git_sync`. -/
def performGitSync (env : GitEnv) : GitSyncResult :=
  if !env.repoExists && !env.hasRepo then ⟨true, true⟩
  else if !env.repoExists && env.cloneExit != 0 then ⟨true, false⟩
  else if env.hasToken && env.setUrlRaises then ⟨true, false⟩
  else
    match env.fetch with
    | .error _ => ⟨true, false⟩
    | .ok fetchCode =>
      if fetchCode ≠ 0 then ⟨false, false⟩
      else
        match env.rebase with
        | .error _ => ⟨true, false⟩
        | .ok _ =>
          match env.revparse with
          | .error _ => ⟨true, false⟩
          | .ok _ => ⟨true, true⟩

end BackgroundAgents

namespace BackgroundAgents

/-! ## Supervisor — `SandboxSupervisor` (sandbox-runtime variant)

`sandbox-runtime/src/sandbox/entrypoint.py`.  The model follows the
source's control flow and records the observable actions as a trace of
events.  Phases 2 (git identity) and 3 (setup script) swallow their
own failures and touch none of the modelled state, so they contribute
no events; phase 1 (`perform_git_sync`) is modelled at the run level by
whether an exception escapes it (its internals are `performGitSync`
above).  Health polling inside `start_opencode` is abstracted to a
per-invocation oracle: `probeOk n` says whether the `n`-th
`_wait_for_health` call (counted over the whole run) finds the server
healthy before its deadline when shutdown has not been requested. -/

/-- The two supervised children. -/
inductive Child where
  | opencode : Child
  | bridge : Child
deriving DecidableEq, Repr

/-- Observable actions of the Supervisor. -/
inductive Ev where
  /-- phase 1 finished without an escaping exception. -/
  | gitSyncDone : Ev
  /-- `asyncio.create_subprocess_exec("opencode", ...)`. -/
  | spawnOpencode : Ev
  /-- `_wait_for_health` returned (a 200 response arrived). -/
  | healthOk : Ev
  /-- `self.opencode_ready.set()`. -/
  | readySet : Ev
  /-- `self.opencode_ready.clear()`. -/
  | readyClear : Ev
  /-- `asyncio.create_subprocess_exec("python", "-m", "src.sandbox.bridge", ...)`. -/
  | spawnBridge : Ev
  /-- the monitor observed an OpenCode exit (`log.error("opencode.crash")`). -/
  | opencodeCrash (code : Int) : Ev
  /-- the monitor observed a non-zero bridge exit (`log.error("bridge.crash")`). -/
  | bridgeCrash (code : Int) : Ev
  /-- the monitor observed a zero bridge exit (`log.info("bridge.graceful_exit")`). -/
  | bridgeGracefulExit : Ev
  /-- `_report_fatal_error(msg)` (best-effort POST, never raises). -/
  | fatalReport (msg : String) : Ev
  /-- `self.shutdown_event.set()`. -/
  | shutdownSet : Ev
  /-- a back-off sleep of the given number of seconds. -/
  | backoffSleep (secs : Nat) : Ev
  /-- `proc.terminate()` followed by `wait_for(proc.wait(), timeout=deadline)`. -/
  | termProc (c : Child) (deadline : Nat) : Ev
  /-- `proc.kill()` after the wait timed out. -/
  | killProc (c : Child) : Ev
deriving DecidableEq, Repr

/-- A child process handle's state: alive, or exited with a code
(`returncode` set). -/
inductive ProcSt where
  | running : ProcSt
  | exited (code : Int) : ProcSt
deriving DecidableEq, Repr

/-- The Supervisor's mutable state: the two latches, the two process
handles, the monitor's two restart counters, and how many health-probe
invocations have happened (to index the probe oracle). -/
structure SupSt where
  shutdownEvent : Bool
  opencodeReady : Bool
  opencode : Option ProcSt
  bridge : Option ProcSt
  restartCount : Nat
  bridgeRestartCount : Nat
  probeCalls : Nat
deriving DecidableEq, Repr

/-- Configuration and oracles fixed for a whole run. -/
structure SupCfg where
  /-- `CONTROL_PLANE_URL` non-empty. -/
  hasControlPlaneUrl : Bool
  /-- `SESSION_ID` non-empty. -/
  hasSessionId : Bool
  /-- outcome of the `n`-th health probe (when shutdown is unset). -/
  probeOk : Nat → Bool

/-- How a modelled code fragment ends: fell through normally, an
exception escaped it, or it is blocked forever on an `await` that can
no longer complete. -/
inductive ExitKind where
  | normal : ExitKind
  | raised : ExitKind
  | blocked : ExitKind
deriving DecidableEq, Repr

/-- State, emitted events, and exit kind of a modelled fragment. -/
structure Out where
  st : SupSt
  evs : List Ev
  exit : ExitKind
deriving Repr

/-- `MAX_RESTARTS`. -/
def MAX_RESTARTS : Nat := 5

/-- `min(BACKOFF_BASE ** n, BACKOFF_MAX)` with base 2 and max 60
(the float arithmetic of the source stays on integer values here). -/
def backoff (n : Nat) : Nat := min (2 ^ n) 60

/-- `start_opencode` (lines 268–355): spawn the server, then
`_wait_for_health`, then `opencode_ready.set()`.  If shutdown was
already requested the probe raises at its first poll; otherwise the
probe oracle decides between a 200 response and deadline expiry (both
failure shapes raise out of `start_opencode`). -/
def startOpencode (cfg : SupCfg) (st : SupSt) : Out :=
  let st1 : SupSt := { st with opencode := some .running, probeCalls := st.probeCalls + 1 }
  if st1.shutdownEvent then ⟨st1, [.spawnOpencode], .raised⟩
  else if cfg.probeOk st.probeCalls then
    ⟨{ st1 with opencodeReady := true }, [.spawnOpencode, .healthOk, .readySet], .normal⟩
  else ⟨st1, [.spawnOpencode], .raised⟩

/-- `start_bridge` (lines 391–443): skip without a control-plane URL;
`await self.opencode_ready.wait()` (blocks forever if the latch is
unset, since nothing else can set it at these call sites); skip without
a session id; else spawn the bridge.  The post-spawn 500 ms early-exit
check only logs and is not modelled. -/
def startBridge (cfg : SupCfg) (st : SupSt) : Out :=
  if !cfg.hasControlPlaneUrl then ⟨st, [], .normal⟩
  else if !st.opencodeReady then ⟨st, [], .blocked⟩
  else if !cfg.hasSessionId then ⟨st, [], .normal⟩
  else ⟨{ st with bridge := some .running }, [.spawnBridge], .normal⟩

/-- What the world does during one iteration of the monitor loop:
whether a termination signal arrived (the handler sets the shutdown
latch), and whether a running OpenCode / bridge process exited with the
given code since the last look. -/
structure MonIn where
  signal : Bool
  opcExit : Option Int
  brExit : Option Int
deriving DecidableEq, Repr

/-- Fold one iteration's external happenings into the state: the signal
handler sets the latch, and exits turn running handles into exited
ones. -/
def applyObs (st : SupSt) (ob : MonIn) : SupSt × List Ev :=
  let st1 := if ob.signal then { st with shutdownEvent := true } else st
  let evs1 : List Ev := if ob.signal then [.shutdownSet] else []
  let st2 := match st1.opencode, ob.opcExit with
    | some .running, some code => { st1 with opencode := some (.exited code) }
    | _, _ => st1
  let st3 := match st2.bridge, ob.brExit with
    | some .running, some code => { st2 with bridge := some (.exited code) }
    | _, _ => st2
  (st3, evs1)

/-- How one monitor-iteration fragment ends: fall through to the next
check, `break` out of the loop, an escaping exception, or a blocked
`await`. -/
inductive MonExit where
  | contin : MonExit
  | brk : MonExit
  | raised : MonExit
  | blocked : MonExit
deriving DecidableEq, Repr

/-- The OpenCode branch of the monitor loop (lines 463–495): on an
observed exit, bump `restart_count`; beyond `MAX_RESTARTS` report
fatal, set the shutdown latch and break; otherwise sleep the back-off,
clear `opencode_ready` and re-run `start_opencode` (whose probe failure
propagates out of `monitor_processes`). -/
def monStepOpc (cfg : SupCfg) (st : SupSt) : SupSt × List Ev × MonExit :=
  match st.opencode with
  | some (.exited code) =>
    let rc := st.restartCount + 1
    let st1 := { st with restartCount := rc }
    if rc > MAX_RESTARTS then
      ({ st1 with shutdownEvent := true },
        [.opencodeCrash code,
         .fatalReport ("OpenCode crashed " ++ toString rc ++ " times, giving up"),
         .shutdownSet], .brk)
    else
      let st2 := { st1 with opencodeReady := false }
      let o := startOpencode cfg st2
      (o.st, [.opencodeCrash code, .backoffSleep (backoff rc), .readyClear] ++ o.evs,
        match o.exit with
        | .normal => .contin
        | .raised => .raised
        | .blocked => .blocked)
  | _ => (st, [], .contin)

/-- The bridge branch of the monitor loop (lines 497–537): a zero exit
is graceful — set the shutdown latch and break without touching the
counter; a non-zero exit bumps `bridge_restart_count`, reports fatal
and breaks beyond `MAX_RESTARTS`, else sleeps the back-off and re-runs
`start_bridge`. -/
def monStepBr (cfg : SupCfg) (st : SupSt) : SupSt × List Ev × MonExit :=
  match st.bridge with
  | some (.exited code) =>
    if code = 0 then
      ({ st with shutdownEvent := true }, [.bridgeGracefulExit, .shutdownSet], .brk)
    else
      let rc := st.bridgeRestartCount + 1
      let st1 := { st with bridgeRestartCount := rc }
      if rc > MAX_RESTARTS then
        ({ st1 with shutdownEvent := true },
          [.bridgeCrash code,
           .fatalReport ("Bridge crashed " ++ toString rc ++ " times, giving up"),
           .shutdownSet], .brk)
      else
        let o := startBridge cfg st1
        (o.st, [.bridgeCrash code, .backoffSleep (backoff rc)] ++ o.evs,
          match o.exit with
          | .normal => .contin
          | .raised => .raised
          | .blocked => .blocked)
  | _ => (st, [], .contin)

/-- One full iteration body of the monitor loop: the OpenCode branch,
then — only if it fell through — the bridge branch.  The trailing
1 s sleep carries no modelled effect. -/
def monStep (cfg : SupCfg) (st : SupSt) : SupSt × List Ev × MonExit :=
  let (st1, evs1, x1) := monStepOpc cfg st
  match x1 with
  | .contin =>
    let (st2, evs2, x2) := monStepBr cfg st1
    (st2, evs1 ++ evs2, x2)
  | x => (st1, evs1, x)

/-- `monitor_processes` (lines 457–539) over a finite list of iteration
inputs: each round folds in the world's happenings, re-checks the
`while not shutdown_event.is_set()` condition, and runs the iteration
body.  Exhausting the input list leaves the loop still live (the
experiment simply stops observing). -/
def monRun (cfg : SupCfg) (st : SupSt) : List MonIn → Out
  | [] => ⟨st, [], .normal⟩
  | ob :: rest =>
    let (st0, evs0) := applyObs st ob
    if st0.shutdownEvent then ⟨st0, evs0, .normal⟩
    else
      let (st1, evs1, mx) := monStep cfg st0
      match mx with
      | .contin =>
        let r := monRun cfg st1 rest
        ⟨r.st, evs0 ++ evs1 ++ r.evs, r.exit⟩
      | .brk => ⟨st1, evs0 ++ evs1, .normal⟩
      | .raised => ⟨st1, evs0 ++ evs1, .raised⟩
      | .blocked => ⟨st1, evs0 ++ evs1, .blocked⟩

/-- Everything external to one `run()` call: whether an exception
escapes phase 1, the monitor-iteration inputs, and whether each child,
once terminated during shutdown, exits within its grace deadline. -/
structure RunScript where
  gitRaises : Bool
  monObs : List MonIn
  bridgeTermTimely : Bool
  opcTermTimely : Bool

/-- State at supervisor start: no children, both latches unset. -/
def initSt : SupSt := ⟨false, false, none, none, 0, 0, 0⟩

/-- The `try` block of `run()` (lines 682–713): phases 1–6 in order.
Phases 2–3 never let an exception escape and touch no modelled state. -/
def runBody (cfg : SupCfg) (s : RunScript) : Out :=
  if s.gitRaises then ⟨initSt, [], .raised⟩
  else
    let o4 := startOpencode cfg initSt
    match o4.exit with
    | .normal =>
      let o5 := startBridge cfg o4.st
      match o5.exit with
      | .normal =>
        let o6 := monRun cfg o5.st s.monObs
        ⟨o6.st, [.gitSyncDone] ++ o4.evs ++ o5.evs ++ o6.evs, o6.exit⟩
      | x => ⟨o5.st, [.gitSyncDone] ++ o4.evs ++ o5.evs, x⟩
    | x => ⟨o4.st, [.gitSyncDone] ++ o4.evs, x⟩

/-- One block of `shutdown`: if the handle exists with `returncode`
unset, `terminate()` it and wait up to `deadline` seconds; a timely
exit is reaped by `wait`, otherwise `kill()` (SIGKILL, non-ignorable)
forces the exit. -/
def shutChild (timely : Bool) (c : Child) (deadline : Nat) :
    Option ProcSt → Option ProcSt × List Ev
  | some .running =>
    if timely then (some (.exited (-15)), [.termProc c deadline])
    else (some (.exited (-9)), [.termProc c deadline, .killProc c])
  | other => (other, [])

/-- `shutdown` (lines 727–747): the bridge block (5 s grace) runs
first, then the OpenCode block (10 s grace). -/
def shutdownSeq (s : RunScript) (st : SupSt) : SupSt × List Ev :=
  let (br, evs1) := shutChild s.bridgeTermTimely .bridge 5 st.bridge
  let (opc, evs2) := shutChild s.opcTermTimely .opencode 10 st.opencode
  ({ st with bridge := br, opencode := opc }, evs1 ++ evs2)

/-- `run()` (lines 662–720): the `try` body; on an escaping exception
the `except` reports fatal (and swallows the exception); the `finally`
runs `shutdown`.  A body blocked on a dead `await` never reaches the
`except`/`finally` (the coroutine never resumes). -/
def runSup (cfg : SupCfg) (s : RunScript) : Out :=
  let b := runBody cfg s
  match b.exit with
  | .blocked => b
  | .raised =>
    let (st1, evs1) := shutdownSeq s b.st
    ⟨st1, b.evs ++ [.fatalReport "supervisor.error"] ++ evs1, .normal⟩
  | .normal =>
    let (st1, evs1) := shutdownSeq s b.st
    ⟨st1, b.evs ++ evs1, .normal⟩

end BackgroundAgents

namespace BackgroundAgents

/-! ## Local-mount Supervisor variant — `sandbox/sandbox/entrypoint.py`

Same state shapes as the runtime variant.  `start_bridge`
(lines 220–261) first resolves a websocket URL (either
`CONTROL_PLANE_WS_URL`, or built from `CONTROL_PLANE_URL` and
`SESSION_ID`, skipping if those are missing), then awaits
`opencode_ready`, then spawns.  `monitor_processes` (lines 263–300)
sleeps 1 s, then restarts OpenCode and the bridge on ANY observed exit
— there is no graceful-exit special case for a zero bridge exit code —
breaking (without a fatal report or latch) past `MAX_RESTARTS`. -/

/-- Local-variant configuration. -/
structure LocalCfg where
  /-- `CONTROL_PLANE_WS_URL` non-empty. -/
  hasWsUrl : Bool
  /-- `CONTROL_PLANE_URL` non-empty. -/
  hasCpUrl : Bool
  /-- `SESSION_ID` non-empty. -/
  hasSessionId : Bool
  /-- outcome of the `n`-th health probe. -/
  probeOk : Nat → Bool

/-- Local `start_opencode` (lines 145–183): same modelled structure as
the runtime variant (spawn, `_wait_for_health` — 60 s deadline —
then `opencode_ready.set()`). -/
def localStartOpencode (cfg : LocalCfg) (st : SupSt) : Out :=
  let st1 : SupSt := { st with opencode := some .running, probeCalls := st.probeCalls + 1 }
  if st1.shutdownEvent then ⟨st1, [.spawnOpencode], .raised⟩
  else if cfg.probeOk st.probeCalls then
    ⟨{ st1 with opencodeReady := true }, [.spawnOpencode, .healthOk, .readySet], .normal⟩
  else ⟨st1, [.spawnOpencode], .raised⟩

/-- Local `start_bridge` (lines 220–261). -/
def localStartBridge (cfg : LocalCfg) (st : SupSt) : Out :=
  if !cfg.hasWsUrl && (!cfg.hasCpUrl || !cfg.hasSessionId) then ⟨st, [], .normal⟩
  else if !st.opencodeReady then ⟨st, [], .blocked⟩
  else ⟨{ st with bridge := some .running }, [.spawnBridge], .normal⟩

/-- Local monitor, OpenCode branch (lines 272–285): bump the counter on
any observed exit, break past `MAX_RESTARTS` (no fatal report, no
latch), else back-off sleep, clear the latch and restart. -/
def localMonStepOpc (cfg : LocalCfg) (st : SupSt) : SupSt × List Ev × MonExit :=
  match st.opencode with
  | some (.exited code) =>
    let rc := st.restartCount + 1
    let st1 := { st with restartCount := rc }
    if rc > MAX_RESTARTS then (st1, [.opencodeCrash code], .brk)
    else
      let st2 := { st1 with opencodeReady := false }
      let o := localStartOpencode cfg st2
      (o.st, [.opencodeCrash code, .backoffSleep (backoff rc), .readyClear] ++ o.evs,
        match o.exit with
        | .normal => .contin
        | .raised => .raised
        | .blocked => .blocked)
  | _ => (st, [], .contin)

/-- Local monitor, bridge branch (lines 287–300): identical to the
OpenCode branch — in particular a zero exit code is restarted like any
crash. -/
def localMonStepBr (cfg : LocalCfg) (st : SupSt) : SupSt × List Ev × MonExit :=
  match st.bridge with
  | some (.exited code) =>
    let rc := st.bridgeRestartCount + 1
    let st1 := { st with bridgeRestartCount := rc }
    if rc > MAX_RESTARTS then (st1, [.bridgeCrash code], .brk)
    else
      let o := localStartBridge cfg st1
      (o.st, [.bridgeCrash code, .backoffSleep (backoff rc)] ++ o.evs,
        match o.exit with
        | .normal => .contin
        | .raised => .raised
        | .blocked => .blocked)
  | _ => (st, [], .contin)

/-- One local monitor iteration body. -/
def localMonStep (cfg : LocalCfg) (st : SupSt) : SupSt × List Ev × MonExit :=
  let (st1, evs1, x1) := localMonStepOpc cfg st
  match x1 with
  | .contin =>
    let (st2, evs2, x2) := localMonStepBr cfg st1
    (st2, evs1 ++ evs2, x2)
  | x => (st1, evs1, x)

/-- Local `monitor_processes` over a finite list of iteration inputs. -/
def localMonRun (cfg : LocalCfg) (st : SupSt) : List MonIn → Out
  | [] => ⟨st, [], .normal⟩
  | ob :: rest =>
    let (st0, evs0) := applyObs st ob
    if st0.shutdownEvent then ⟨st0, evs0, .normal⟩
    else
      let (st1, evs1, mx) := localMonStep cfg st0
      match mx with
      | .contin =>
        let r := localMonRun cfg st1 rest
        ⟨r.st, evs0 ++ evs1 ++ r.evs, r.exit⟩
      | .brk => ⟨st1, evs0 ++ evs1, .normal⟩
      | .raised => ⟨st1, evs0 ++ evs1, .raised⟩
      | .blocked => ⟨st1, evs0 ++ evs1, .blocked⟩

/-! ## Trace predicates -/

/-- Flag evolution along a trace: the first flag records whether the
latest health probe succeeded (cleared with the latch), the second
whether the `opencode_ready` latch is set. -/
def flagsStep : Bool × Bool → Ev → Bool × Bool
  | (_, l), .healthOk => (true, l)
  | (p, _), .readySet => (p, true)
  | _, .readyClear => (false, false)
  | pl, _ => pl

/-- Run the flags over a trace. -/
def flagsAfter (pl : Bool × Bool) : List Ev → Bool × Bool
  | [] => pl
  | e :: t => flagsAfter (flagsStep pl e) t

/-- Every `spawnBridge` in the trace happens while the latest health
probe has succeeded and the `opencode_ready` latch is set. -/
def bridgeSpawnGuard (pl : Bool × Bool) : List Ev → Bool
  | [] => true
  | e :: t =>
    (match e with
     | .spawnBridge => pl.1 && pl.2
     | _ => true) && bridgeSpawnGuard (flagsStep pl e) t

/-- An observed termination action. -/
def isTermEv : Ev → Bool
  | .termProc _ _ => true
  | .killProc _ => true
  | _ => false

/-- A child handle that no longer needs reaping: absent, or with
`returncode` set. -/
def procDone : Option ProcSt → Bool
  | none => true
  | some (.exited _) => true
  | some .running => false

/-- Count of OpenCode-crash observations in a trace. -/
def countOpcCrash (l : List Ev) : Nat :=
  l.countP fun e => match e with | .opencodeCrash _ => true | _ => false

/-- Count of bridge-crash observations in a trace. -/
def countBrCrash (l : List Ev) : Nat :=
  l.countP fun e => match e with | .bridgeCrash _ => true | _ => false

end BackgroundAgents

namespace BackgroundAgents

/-! ## Theorems: Callback Client (claims C2, C10) -/

/-- Each attempt performs at most one HTTP POST. -/
theorem attemptPosts_le_one (o : AttemptOutcome) : attemptPosts o ≤ 1 := by
  cases o <;> simp [attemptPosts]

/-- C2 (counterexample).  With every attempt failing (HTTP 503), the
Callback Client performs its 3 attempts but the observed inter-attempt
delays are 2 s and 4 s, not the 2 s and 8 s the claim states. -/
theorem C2_counterexample :
    (callbackWithRetry fun _ => .status 503).attempts = 3 ∧
    (callbackWithRetry fun _ => .status 503).sleeps = [2, 4] ∧
    (callbackWithRetry fun _ => .status 503).sleeps ≠ [2, 8] := by
  decide

/-- C2 (amended).  For every logical callback delivery the client makes
at most 3 attempts (hence at most 3 HTTP POSTs); after the failure of
attempt `k` (1-indexed, `k < 3`) it sleeps `BACKOFF_BASE ^ k` seconds,
so the delays actually slept are the prefix of `[2, 4]` with one entry
per non-final failed attempt; the final failed attempt is not followed
by a sleep. -/
theorem C2_retry_policy (env : Nat → AttemptOutcome) :
    (callbackWithRetry env).attempts ≤ 3 ∧
    (callbackWithRetry env).posts ≤ (callbackWithRetry env).attempts ∧
    (callbackWithRetry env).sleeps =
      [2, 4].take ((callbackWithRetry env).attempts - 1) := by
  have h0 := attemptPosts_le_one (env 0)
  have h1 := attemptPosts_le_one (env 1)
  have h2 := attemptPosts_le_one (env 2)
  simp only [callbackWithRetry, cbLoop]
  rcases hs0 : attemptSucceeds (env 0) with _ | _ <;>
    rcases hs1 : attemptSucceeds (env 1) with _ | _ <;>
      rcases hs2 : attemptSucceeds (env 2) with _ | _ <;>
        simp [hs0, hs1, hs2] <;> omega

/-- C10.  The bearer token is minted once per loop iteration (inside the
retry loop); and when the issuer raises on all three attempts, the loop
catches each exception before any HTTP request is made, so the client
performs zero POSTs, exhausts its 3 attempts, and returns `False`
(without raising — the model is a total function because the loop's
`except` catches every per-attempt exception). -/
theorem C10_token_per_attempt (env : Nat → AttemptOutcome) :
    (callbackWithRetry env).mints = (callbackWithRetry env).attempts ∧
    ((∀ i, i < 3 → env i = .tokenErr) →
      (callbackWithRetry env).posts = 0 ∧
      (callbackWithRetry env).success = false ∧
      (callbackWithRetry env).attempts = 3) := by
  constructor
  · simp only [callbackWithRetry, cbLoop]
    rcases hs0 : attemptSucceeds (env 0) with _ | _ <;>
      rcases hs1 : attemptSucceeds (env 1) with _ | _ <;>
        rcases hs2 : attemptSucceeds (env 2) with _ | _ <;>
          simp [hs0, hs1, hs2]
  · intro h
    have e0 := h 0 (by omega)
    have e1 := h 1 (by omega)
    have e2 := h 2 (by omega)
    simp [callbackWithRetry, cbLoop, e0, e1, e2, attemptSucceeds, attemptPosts]

/-- Witness for C10 at the all-issuer-failures environment. -/
theorem C10_witness :
    (callbackWithRetry fun _ => AttemptOutcome.tokenErr).posts = 0 ∧
    (callbackWithRetry fun _ => AttemptOutcome.tokenErr).success = false :=
  ⟨(((C10_token_per_attempt fun _ => .tokenErr).2) (fun _ _ => rfl)).1,
   (((C10_token_per_attempt fun _ => .tokenErr).2) (fun _ _ => rfl)).2.1⟩

/-! ## Theorems: Image Builder (claims C1, C8) -/

/-- C1.  For every invocation with a non-empty `callback_url`, exactly
one callback kind is attempted: the success callback iff steps 1–6 all
completed (equivalently, the snapshot returned a provider image id),
the failure callback iff some step raised; never both. -/
theorem C1_exactly_one_callback (u b : String) (env : BuildEnv) (hu : u ≠ "") :
    countSuccessCb (buildRepoImage u b env) = (if buildStepsOk env then 1 else 0) ∧
    countFailureCb (buildRepoImage u b env) = (if buildStepsOk env then 0 else 1) := by
  unfold buildRepoImage buildStepsOk buildFailureAttempts
  rcases env.createSandbox with e | u1 <;>
    rcases hw : env.waitExit with e | code <;>
      rcases env.snapshot with e | img <;>
        simp [hu, countSuccessCb, countFailureCb]
  all_goals by_cases hz : code = 0 <;> simp [hz, countSuccessCb, countFailureCb]

/-- Witness for C1: a fully successful build attempts exactly one
success callback and no failure callback. -/
theorem C1_witness :
    countSuccessCb (buildRepoImage "https://cp/builds/b-1/build-complete" "b-1"
      ⟨false, .ok (), .ok 0, false, "sha", .ok "img"⟩) = 1 ∧
    countFailureCb (buildRepoImage "https://cp/builds/b-1/build-complete" "b-1"
      ⟨false, .ok (), .ok 0, false, "sha", .ok "img"⟩) = 0 := by
  have h := C1_exactly_one_callback "https://cp/builds/b-1/build-complete" "b-1"
    ⟨false, .ok (), .ok 0, false, "sha", .ok "img"⟩ (by decide)
  simpa [buildStepsOk] using h

/-- A callback URL containing `/build-complete` twice, once away from
the end. -/
def doubledUrl : String := "https://cp/build-complete/builds/b-1/build-complete"

/-- A build environment whose sandbox exits with code 7. -/
def envExit7 : BuildEnv := ⟨false, .ok (), .ok 7, false, "", .ok "img"⟩

/-- C8 (counterexample).  `str.replace` rewrites every occurrence of
`/build-complete`, not only the suffix: on `doubledUrl` the code posts
the failure to a URL whose non-suffix occurrence is rewritten too,
differing from the spec's suffix-only replacement. -/
theorem C8_counterexample :
    (buildRepoImage doubledUrl "b-1" envExit7).map CbAttempt.url =
      ["https://cp/build-failed/builds/b-1/build-failed"] ∧
    (buildRepoImage doubledUrl "b-1" envExit7).map CbAttempt.url ≠
      [suffixReplaceSpec doubledUrl "/build-complete" "/build-failed"] := by
  decide

/-- C8 (amended).  When the build sandbox exits with a non-zero code
`code` and `callback_url` is non-empty, the builder attempts exactly one
failure callback, at the URL obtained from `callback_url` by replacing
EVERY occurrence of `/build-complete` with `/build-failed` (Python
`str.replace` semantics), with body `{build_id, error}` where the error
string is exactly `"Build sandbox exited with code <code>"`. -/
theorem C8_failure_callback (u b : String) (env : BuildEnv) (code : Int)
    (hu : u ≠ "") (hc : env.createSandbox = .ok ()) (hw : env.waitExit = .ok code)
    (hnz : code ≠ 0) :
    buildRepoImage u b env =
      [⟨pyReplace u "/build-complete" "/build-failed",
        .failure b ("Build sandbox exited with code " ++ toString code)⟩] := by
  unfold buildRepoImage buildFailureAttempts
  rw [hc, hw]
  simp [hnz, hu]

/-- Witness for C8 at exit code 7. -/
theorem C8_witness :
    buildRepoImage "https://cp/builds/b-1/build-complete" "b-1" envExit7 =
      [⟨"https://cp/builds/b-1/build-failed",
        .failure "b-1" "Build sandbox exited with code 7"⟩] := by
  have h := C8_failure_callback "https://cp/builds/b-1/build-complete" "b-1" envExit7 7
    (by decide) rfl rfl (by decide)
  rw [h]
  decide

end BackgroundAgents

namespace BackgroundAgents

/-! ## Theorems: Health Prober (claim C7) -/

/-- C7 (counterexample).  The prober checks for status exactly 200, not
for any 2xx: a probe whose only poll receives a 204 response does not
succeed (it polls on and the deadline expires), refuting "succeeds iff
some poll receives a 2xx status code". -/
theorem C7_counterexample :
    ¬ (waitForHealth [⟨false, .resp 204⟩] = .healthy ↔
        ∃ r ∈ [PollRound.mk false (.resp 204)], isTwoXX r.obs = true) := by
  decide

/-- `pollHit` holds exactly on a 200 response. -/
theorem pollHit_iff (o : PollObs) : pollHit o = true ↔ o = .resp 200 := by
  cases o <;> simp [pollHit]

/-- The health loop succeeds exactly when some poll round receives a
response with status exactly 200, with no earlier round seeing the
shutdown latch set. -/
theorem waitForHealth_healthy_iff (rounds : List PollRound) :
    waitForHealth rounds = .healthy ↔
      ∃ pre r post, rounds = pre ++ r :: post ∧ r.shutdownSet = false ∧
        r.obs = .resp 200 ∧ ∀ q ∈ pre, q.shutdownSet = false := by
  constructor
  · intro h
    induction rounds with
    | nil => simp [waitForHealth] at h
    | cons r rest ih =>
      by_cases hs : r.shutdownSet
      · simp [waitForHealth, hs] at h
      · by_cases hh : pollHit r.obs
        · exact ⟨[], r, rest, by simp, by simpa using hs, (pollHit_iff _).mp hh, by simp⟩
        · rw [waitForHealth, if_neg hs, if_neg hh] at h
          rcases ih h with ⟨pre, q, post, hsplit, hqs, hq200, hpre⟩
          refine ⟨r :: pre, q, post, by simp [hsplit], hqs, hq200, ?_⟩
          intro x hx
          rcases List.mem_cons.mp hx with hx | hx
          · simpa [hx] using hs
          · exact hpre x hx
  · rintro ⟨pre, r, post, hsplit, hrs, hr200, hpre⟩
    subst hsplit
    induction pre with
    | nil => simp [waitForHealth, hrs, pollHit, hr200]
    | cons q pre ih =>
      have hqs : q.shutdownSet = false := hpre q (by simp)
      have hpre2 : ∀ x ∈ pre, x.shutdownSet = false := fun x hx => hpre x (by simp [hx])
      by_cases hh : pollHit q.obs
      · simp [waitForHealth, hqs, hh]
      · rw [List.cons_append, waitForHealth, if_neg (by simp [hqs]), if_neg hh]
        exact ih hpre2

/-- C7 (amended).  The prober succeeds iff some poll receives an HTTP
response with status exactly 200 before the deadline and before any
shutdown observation; if the rounds the deadline admits all pass
without shutdown and without a 200 response, it raises the
deadline-expired error; and a round that starts with the shutdown
latch set raises the shutdown-requested error immediately. -/
theorem C7_health_probe :
    (∀ rounds : List PollRound,
      (waitForHealth rounds = .healthy ↔
        ∃ pre r post, rounds = pre ++ r :: post ∧ r.shutdownSet = false ∧
          r.obs = .resp 200 ∧ ∀ q ∈ pre, q.shutdownSet = false)) ∧
    (∀ rounds : List PollRound,
      (∀ q ∈ rounds, q.shutdownSet = false ∧ q.obs ≠ .resp 200) →
        waitForHealth rounds = .deadline) ∧
    (∀ (r : PollRound) (rest : List PollRound), r.shutdownSet = true →
      waitForHealth (r :: rest) = .shutdownReq) := by
  refine ⟨waitForHealth_healthy_iff, ?_, ?_⟩
  · intro rounds h
    induction rounds with
    | nil => rfl
    | cons r rest ih =>
      have hr := h r (by simp)
      have hrest : ∀ q ∈ rest, q.shutdownSet = false ∧ q.obs ≠ .resp 200 :=
        fun q hq => h q (by simp [hq])
      have hh : pollHit r.obs = false := by
        rcases hph : pollHit r.obs with _ | _
        · rfl
        · exact absurd ((pollHit_iff _).mp hph) hr.2
      rw [waitForHealth, if_neg (by simp [hr.1]), if_neg (by simp [hh])]
      exact ih hrest
  · intro r rest hs
    simp [waitForHealth, hs]

/-- Witness for C7: a 200 on the second poll succeeds; a shutdown
observation fails immediately. -/
theorem C7_witness :
    waitForHealth [⟨false, .connectErr⟩, ⟨false, .resp 200⟩] = .healthy ∧
    waitForHealth [⟨true, .resp 200⟩] = .shutdownReq :=
  ⟨(C7_health_probe.1 _).mpr
      ⟨[⟨false, .connectErr⟩], ⟨false, .resp 200⟩, [], rfl, rfl, rfl, by decide⟩,
   C7_health_probe.2.2 ⟨true, .resp 200⟩ [] rfl⟩

/-! ## Theorems: Workspace Preparer (claim C9) -/

/-- C9.  A failing `git fetch origin` (non-zero exit, no exception)
makes `perform_git_sync` return `False` WITHOUT setting the
`git_sync_complete` latch — the only return path of the function that
skips the latch, contradicting the stated "latched regardless"
behavior that every other path (clone skip, clone failure, rebase
failure, exception, success) implements. -/
theorem C9_fetch_failure_skips_latch :
    performGitSync ⟨true, true, false, 0, false, .ok 1, .ok 0, .ok ()⟩ =
      ⟨false, false⟩ := by
  decide

/-- Complement to C9: on every outcome other than a non-zero fetch
exit inside the `try` block, the latch is set before returning. -/
theorem performGitSync_latches_otherwise (env : GitEnv)
    (h : ∀ code : Int, env.fetch = .ok code → code = 0) :
    (performGitSync env).latched = true := by
  by_cases h1 : (!env.repoExists && !env.hasRepo) = true
  · simp [performGitSync, h1]
  · by_cases h2 : (!env.repoExists && env.cloneExit != 0) = true
    · simp [performGitSync, h1, h2]
    · by_cases h3 : (env.hasToken && env.setUrlRaises) = true
      · simp [performGitSync, h1, h2, h3]
      · rcases hf : env.fetch with e | code
        · simp [performGitSync, h1, h2, h3, hf]
        · have hz := h code hf
          subst hz
          rcases hr : env.rebase with e | rc <;>
            rcases hv : env.revparse with e | u <;>
              simp [performGitSync, h1, h2, h3, hf, hr, hv]

end BackgroundAgents

namespace BackgroundAgents

/-! ## Trace-predicate infrastructure -/

/-- Flags compose over concatenation. -/
theorem flagsAfter_append (pl : Bool × Bool) (a b : List Ev) :
    flagsAfter pl (a ++ b) = flagsAfter (flagsAfter pl a) b := by
  induction a generalizing pl with
  | nil => rfl
  | cons e t ih => simp [flagsAfter, ih]

/-- The spawn guard composes over concatenation. -/
theorem bridgeSpawnGuard_append (pl : Bool × Bool) (a b : List Ev) :
    bridgeSpawnGuard pl (a ++ b) =
      (bridgeSpawnGuard pl a && bridgeSpawnGuard (flagsAfter pl a) b) := by
  induction a generalizing pl with
  | nil => simp [bridgeSpawnGuard, flagsAfter]
  | cons e t ih =>
    cases e <;> simp [bridgeSpawnGuard, flagsAfter, flagsStep, ih, Bool.and_assoc]

/-! ## `start_opencode` / `start_bridge` facts -/

/-- Shape of `startOpencode`: it never blocks, emits exactly one
OpenCode spawn and no bridge spawn or termination action, keeps the
trace flags in sync with the latch, sets the latch exactly on normal
return, and leaves the bridge handle, the shutdown latch and both
counters untouched. -/
theorem startOpencode_spec (cfg : SupCfg) (st : SupSt) :
    (startOpencode cfg st).exit ≠ .blocked ∧
    flagsAfter (st.opencodeReady, st.opencodeReady) (startOpencode cfg st).evs =
      ((startOpencode cfg st).st.opencodeReady,
       (startOpencode cfg st).st.opencodeReady) ∧
    bridgeSpawnGuard (st.opencodeReady, st.opencodeReady)
      (startOpencode cfg st).evs = true ∧
    ((startOpencode cfg st).exit = .normal →
      (startOpencode cfg st).st.opencodeReady = true) ∧
    (startOpencode cfg st).st.bridge = st.bridge ∧
    (startOpencode cfg st).st.shutdownEvent = st.shutdownEvent ∧
    (startOpencode cfg st).st.restartCount = st.restartCount ∧
    (startOpencode cfg st).st.bridgeRestartCount = st.bridgeRestartCount ∧
    (startOpencode cfg st).evs.count Ev.spawnOpencode = 1 ∧
    (startOpencode cfg st).evs.count Ev.spawnBridge = 0 ∧
    (∀ e ∈ (startOpencode cfg st).evs, isTermEv e = false) ∧
    countOpcCrash (startOpencode cfg st).evs = 0 ∧
    countBrCrash (startOpencode cfg st).evs = 0 ∧
    (∀ m, Ev.fatalReport m ∉ (startOpencode cfg st).evs) ∧
    Ev.bridgeGracefulExit ∉ (startOpencode cfg st).evs := by
  unfold startOpencode
  by_cases hsd : st.shutdownEvent = true <;>
    by_cases hp : cfg.probeOk st.probeCalls = true <;>
      simp [hsd, hp, flagsAfter, flagsStep, bridgeSpawnGuard, isTermEv,
        countOpcCrash, countBrCrash, List.count_cons, List.count_nil]

/-- Shape of `startBridge`: it blocks exactly when a control-plane URL
is configured and the latch is unset; otherwise it emits at most one
bridge spawn (and only while the latch is set), no other events, and
leaves everything but the bridge handle untouched. -/
theorem startBridge_spec (cfg : SupCfg) (st : SupSt) :
    ((startBridge cfg st).exit = .blocked ↔
      cfg.hasControlPlaneUrl = true ∧ st.opencodeReady = false) ∧
    flagsAfter (st.opencodeReady, st.opencodeReady) (startBridge cfg st).evs =
      (st.opencodeReady, st.opencodeReady) ∧
    bridgeSpawnGuard (st.opencodeReady, st.opencodeReady)
      (startBridge cfg st).evs = true ∧
    (startBridge cfg st).st.opencodeReady = st.opencodeReady ∧
    (startBridge cfg st).st.opencode = st.opencode ∧
    (startBridge cfg st).st.shutdownEvent = st.shutdownEvent ∧
    (startBridge cfg st).st.restartCount = st.restartCount ∧
    (startBridge cfg st).st.bridgeRestartCount = st.bridgeRestartCount ∧
    (startBridge cfg st).evs.count Ev.spawnOpencode = 0 ∧
    (startBridge cfg st).evs.count Ev.spawnBridge ≤ 1 ∧
    (∀ e ∈ (startBridge cfg st).evs, isTermEv e = false) ∧
    countOpcCrash (startBridge cfg st).evs = 0 ∧
    countBrCrash (startBridge cfg st).evs = 0 ∧
    (∀ m, Ev.fatalReport m ∉ (startBridge cfg st).evs) ∧
    Ev.bridgeGracefulExit ∉ (startBridge cfg st).evs ∧
    ((startBridge cfg st).evs = [] ∨ (startBridge cfg st).evs = [Ev.spawnBridge]) ∧
    (startBridge cfg st).exit ≠ .raised := by
  unfold startBridge
  split_ifs with h1 h2 h3 <;>
    simp_all [flagsAfter, flagsStep, bridgeSpawnGuard, isTermEv, countOpcCrash,
      countBrCrash, List.count_cons, List.count_nil]

end BackgroundAgents

namespace BackgroundAgents

/-! ## Monitor-iteration facts -/

/-- `applyObs` only sets the shutdown latch and marks exits: the ready
latch and both counters are untouched, and the emitted events are
nothing or a single `shutdownSet`. -/
theorem applyObs_spec (st : SupSt) (ob : MonIn) :
    (applyObs st ob).1.opencodeReady = st.opencodeReady ∧
    (applyObs st ob).1.restartCount = st.restartCount ∧
    (applyObs st ob).1.bridgeRestartCount = st.bridgeRestartCount ∧
    ((applyObs st ob).2 = [] ∨ (applyObs st ob).2 = [Ev.shutdownSet]) := by
  unfold applyObs
  by_cases hs : ob.signal = true <;>
    rcases ho : st.opencode with _ | p <;>
      rcases hb : st.bridge with _ | q <;>
        rcases hoe : ob.opcExit with _ | c <;>
          rcases hbe : ob.brExit with _ | d <;>
            first
            | (cases p <;> cases q <;> simp [hs, ho, hb, hoe, hbe])
            | (cases p <;> simp [hs, ho, hb, hoe, hbe])
            | (cases q <;> simp [hs, ho, hb, hoe, hbe])
            | simp [hs, ho, hb, hoe, hbe]

/-- Without a signal, `applyObs` leaves the shutdown latch unchanged. -/
theorem applyObs_noSignal_shutdown (st : SupSt) (ob : MonIn)
    (hsig : ob.signal = false) :
    (applyObs st ob).1.shutdownEvent = st.shutdownEvent := by
  unfold applyObs
  rcases ho : st.opencode with _ | p <;>
    rcases hb : st.bridge with _ | q <;>
      rcases hoe : ob.opcExit with _ | c <;>
        rcases hbe : ob.brExit with _ | d <;>
          first
          | (cases p <;> cases q <;> simp [hsig, ho, hb, hoe, hbe])
          | (cases p <;> simp [hsig, ho, hb, hoe, hbe])
          | (cases q <;> simp [hsig, ho, hb, hoe, hbe])
          | simp [hsig, ho, hb, hoe, hbe]
end BackgroundAgents

namespace BackgroundAgents

/-- Facts about the OpenCode branch of one monitor iteration: it never
blocks; with the latch set it keeps the spawn-guard and the trace flags
consistent; `restart_count` grows by exactly the number of crash
observations it emits; it leaves the bridge state alone; it emits at
most one OpenCode spawn, and then only with the (incremented) counter
within the ceiling; crossing the ceiling sets the shutdown latch,
reports fatal, and breaks. -/
theorem monStepOpc_spec (cfg : SupCfg) (st : SupSt) :
    (monStepOpc cfg st).2.2 ≠ .blocked ∧
    (st.opencodeReady = true →
      bridgeSpawnGuard (true, true) (monStepOpc cfg st).2.1 = true ∧
      flagsAfter (true, true) (monStepOpc cfg st).2.1 =
        ((monStepOpc cfg st).1.opencodeReady, (monStepOpc cfg st).1.opencodeReady) ∧
      ((monStepOpc cfg st).2.2 = .contin → (monStepOpc cfg st).1.opencodeReady = true)) ∧
    (monStepOpc cfg st).1.restartCount =
      st.restartCount + countOpcCrash (monStepOpc cfg st).2.1 ∧
    (monStepOpc cfg st).1.bridgeRestartCount = st.bridgeRestartCount ∧
    countBrCrash (monStepOpc cfg st).2.1 = 0 ∧
    (monStepOpc cfg st).2.1.count Ev.spawnBridge = 0 ∧
    ((monStepOpc cfg st).2.1.count Ev.spawnOpencode = 0 ∨
      ((monStepOpc cfg st).2.1.count Ev.spawnOpencode = 1 ∧
        (monStepOpc cfg st).1.restartCount = st.restartCount + 1 ∧
        (monStepOpc cfg st).1.restartCount ≤ MAX_RESTARTS)) ∧
    Ev.bridgeGracefulExit ∉ (monStepOpc cfg st).2.1 ∧
    (∀ e ∈ (monStepOpc cfg st).2.1, isTermEv e = false) ∧
    (st.restartCount ≤ MAX_RESTARTS →
      (monStepOpc cfg st).1.restartCount > MAX_RESTARTS →
      (monStepOpc cfg st).1.shutdownEvent = true ∧
      (∃ m, Ev.fatalReport m ∈ (monStepOpc cfg st).2.1) ∧
      (monStepOpc cfg st).2.2 = .brk) ∧
    ((monStepOpc cfg st).2.2 = .brk → (monStepOpc cfg st).1.shutdownEvent = true) ∧
    (monStepOpc cfg st).1.bridge = st.bridge := by
  unfold monStepOpc
  rcases ho : st.opencode with _ | p
  · simp [countOpcCrash, countBrCrash, flagsAfter, bridgeSpawnGuard]
  · cases p with
    | running =>
      simp [countOpcCrash, countBrCrash, flagsAfter, bridgeSpawnGuard]
    | exited code =>
      by_cases hrc : st.restartCount + 1 > MAX_RESTARTS
      · simp [hrc, countOpcCrash, countBrCrash, flagsAfter, flagsStep,
          bridgeSpawnGuard, isTermEv, List.count_cons, List.count_nil,
          List.countP_cons, List.countP_nil]
      · simp only [hrc, if_false, ite_false]
        obtain ⟨sNB, sFlags, sGuard, sReady, sBridge, sShut, sRC, sBRC, sCntO,
            sCntB, sTerm, sCrO, sCrB, sFatal, sGrace⟩ :=
          startOpencode_spec cfg
            { shutdownEvent := st.shutdownEvent, opencodeReady := false,
              opencode := some (ProcSt.exited code), bridge := st.bridge,
              restartCount := st.restartCount + 1,
              bridgeRestartCount := st.bridgeRestartCount,
              probeCalls := st.probeCalls }
        set o := startOpencode cfg
            { shutdownEvent := st.shutdownEvent, opencodeReady := false,
              opencode := some (ProcSt.exited code), bridge := st.bridge,
              restartCount := st.restartCount + 1,
              bridgeRestartCount := st.bridgeRestartCount,
              probeCalls := st.probeCalls } with hodef
        simp only at sFlags sGuard sRC sBRC sBridge sShut
        refine ⟨?_, ?_, ?_, ?_, ?_, ?_, ?_, ?_, ?_, ?_, ?_, ?_⟩
        · rcases hx : o.exit with _ | _ | _
          · simp [hx]
          · simp [hx]
          · exact absurd hx sNB
        · intro hr
          refine ⟨?_, ?_, ?_⟩
          · simp [bridgeSpawnGuard_append, bridgeSpawnGuard, flagsAfter,
              flagsStep, sGuard]
          · simp [flagsAfter_append, flagsAfter, flagsStep, sFlags]
          · intro hcont
            rcases hx : o.exit with _ | _ | _ <;> simp [hx] at hcont ⊢
            exact sReady hx
        · simp only [countOpcCrash] at sCrO ⊢
          simp [List.countP_append, List.countP_cons, sCrO, sRC]
        · simp [sBRC]
        · simp only [countBrCrash] at sCrB ⊢
          simp [List.countP_append, List.countP_cons, sCrB]
        · simp [List.count_append, List.count_cons, sCntB]
        · right
          refine ⟨?_, by simp [sRC], by simp [sRC]; omega⟩
          simp [List.count_append, List.count_cons, sCntO]
        · simp [List.mem_append, sGrace]
        · intro e he
          rcases List.mem_append.mp he with h | h
          · simp only [List.mem_cons, List.not_mem_nil, or_false] at h
            rcases h with h | h | h <;> simp [h, isTermEv]
          · exact sTerm e h
        · intro h1 h2
          rw [sRC] at h2
          omega
        · rcases hx : o.exit with _ | _ | _ <;> simp [hx]
        · simp [sBridge]

end BackgroundAgents

namespace BackgroundAgents

/-- Facts about the bridge branch of one monitor iteration: with the
latch set it never blocks and keeps the spawn-guard; it never touches
the trace flags, the ready latch, `restart_count` or the OpenCode
handle; `bridge_restart_count` grows by exactly the number of
bridge-crash observations; at most one bridge spawn is emitted, only
with the incremented counter within the ceiling; a graceful (zero)
bridge exit ends the events with `[bridgeGracefulExit, shutdownSet]`,
sets the latch and breaks; crossing the ceiling reports fatal, sets
the latch and breaks. -/
theorem monStepBr_spec (cfg : SupCfg) (st : SupSt) :
    (st.opencodeReady = true → (monStepBr cfg st).2.2 ≠ .blocked) ∧
    (∀ pl, flagsAfter pl (monStepBr cfg st).2.1 = pl) ∧
    (monStepBr cfg st).1.opencodeReady = st.opencodeReady ∧
    (st.opencodeReady = true →
      bridgeSpawnGuard (true, true) (monStepBr cfg st).2.1 = true) ∧
    (monStepBr cfg st).1.restartCount = st.restartCount ∧
    countOpcCrash (monStepBr cfg st).2.1 = 0 ∧
    (monStepBr cfg st).1.bridgeRestartCount =
      st.bridgeRestartCount + countBrCrash (monStepBr cfg st).2.1 ∧
    (monStepBr cfg st).2.1.count Ev.spawnOpencode = 0 ∧
    ((monStepBr cfg st).2.1.count Ev.spawnBridge = 0 ∨
      ((monStepBr cfg st).2.1.count Ev.spawnBridge = 1 ∧
        (monStepBr cfg st).1.bridgeRestartCount = st.bridgeRestartCount + 1 ∧
        (monStepBr cfg st).1.bridgeRestartCount ≤ MAX_RESTARTS)) ∧
    (Ev.bridgeGracefulExit ∈ (monStepBr cfg st).2.1 →
      (monStepBr cfg st).2.2 = .brk ∧ (monStepBr cfg st).1.shutdownEvent = true ∧
      ∃ p, (monStepBr cfg st).2.1 = p ++ [Ev.bridgeGracefulExit, Ev.shutdownSet] ∧
        Ev.bridgeGracefulExit ∉ p) ∧
    (∀ e ∈ (monStepBr cfg st).2.1, isTermEv e = false) ∧
    (st.bridgeRestartCount ≤ MAX_RESTARTS →
      (monStepBr cfg st).1.bridgeRestartCount > MAX_RESTARTS →
      (monStepBr cfg st).1.shutdownEvent = true ∧
      (∃ m, Ev.fatalReport m ∈ (monStepBr cfg st).2.1) ∧
      (monStepBr cfg st).2.2 = .brk) ∧
    ((monStepBr cfg st).2.2 = .brk → (monStepBr cfg st).1.shutdownEvent = true) := by
  unfold monStepBr
  rcases hb : st.bridge with _ | p
  · simp [countOpcCrash, countBrCrash, flagsAfter, bridgeSpawnGuard]
  · cases p with
    | running =>
      simp [countOpcCrash, countBrCrash, flagsAfter, bridgeSpawnGuard]
    | exited code =>
      by_cases hz : code = 0
      · simp [hz, countOpcCrash, countBrCrash, flagsAfter, flagsStep,
          bridgeSpawnGuard, isTermEv, List.count_cons, List.countP_cons]
      · by_cases hrc : st.bridgeRestartCount + 1 > MAX_RESTARTS
        · simp [hz, hrc, countOpcCrash, countBrCrash, flagsAfter, flagsStep,
            bridgeSpawnGuard, isTermEv, List.count_cons, List.count_nil,
            List.countP_cons, List.countP_nil]
        · simp only [hz, hrc, if_false, ite_false]
          obtain ⟨sBlk, sFlags, sGuard, sReady, sOpc, sShut, sRC, sBRC, sCntO,
              sCntB, sTerm, sCrO, sCrB, sFatal, sGrace, sShape⟩ :=
            startBridge_spec cfg
              { shutdownEvent := st.shutdownEvent, opencodeReady := st.opencodeReady,
                opencode := st.opencode, bridge := some (ProcSt.exited code),
                restartCount := st.restartCount,
                bridgeRestartCount := st.bridgeRestartCount + 1,
                probeCalls := st.probeCalls }
          set o := startBridge cfg
              { shutdownEvent := st.shutdownEvent, opencodeReady := st.opencodeReady,
                opencode := st.opencode, bridge := some (ProcSt.exited code),
                restartCount := st.restartCount,
                bridgeRestartCount := st.bridgeRestartCount + 1,
                probeCalls := st.probeCalls } with hodef
          simp only at sBlk sFlags sGuard sReady sOpc sShut sRC sBRC
          refine ⟨?_, ?_, ?_, ?_, ?_, ?_, ?_, ?_, ?_, ?_, ?_, ?_, ?_⟩
          · intro hr
            rcases hx : o.exit with _ | _ | _
            · simp [hx]
            · simp [hx]
            · exact absurd (sBlk.mp hx).2 (by simp [hr])
          · intro pl
            rcases sShape with h | h <;>
              simp [h, flagsAfter_append, flagsAfter, flagsStep]
          · simp [sReady]
          · intro hr
            rcases sShape with h | h <;>
              simp [h, bridgeSpawnGuard_append, bridgeSpawnGuard, flagsAfter,
                flagsStep, hr]
          · simp [sRC]
          · simp only [countOpcCrash] at sCrO ⊢
            simp [List.countP_append, List.countP_cons, sCrO]
          · simp only [countBrCrash] at sCrB ⊢
            simp [List.countP_append, List.countP_cons, sCrB, sBRC, hz]
          · simp [List.count_append, List.count_cons, sCntO]
          · rcases sShape with h | h
            · left
              simp [h, List.count_append, List.count_cons]
            · right
              refine ⟨by simp [h, List.count_append, List.count_cons], by simp [sBRC], ?_⟩
              simp [sBRC]
              omega
          · intro hg
            exact absurd hg (by simp [List.mem_append, sGrace])
          · intro e he
            rcases List.mem_append.mp he with h | h
            · simp only [List.mem_cons, List.not_mem_nil, or_false] at h
              rcases h with h | h <;> simp [h, isTermEv]
            · exact sTerm e h
          · intro h1 h2
            rw [sBRC] at h2
            omega
          · rcases hx : o.exit with _ | _ | _ <;> simp [hx]

end BackgroundAgents

namespace BackgroundAgents

/-- Combined facts about one monitor-loop iteration body. -/
theorem monStep_spec (cfg : SupCfg) (st : SupSt) :
    (st.opencodeReady = true → (monStep cfg st).2.2 ≠ .blocked) ∧
    (st.opencodeReady = true →
      bridgeSpawnGuard (true, true) (monStep cfg st).2.1 = true) ∧
    (st.opencodeReady = true →
      flagsAfter (true, true) (monStep cfg st).2.1 =
        ((monStep cfg st).1.opencodeReady, (monStep cfg st).1.opencodeReady)) ∧
    (st.opencodeReady = true → (monStep cfg st).2.2 = .contin →
      (monStep cfg st).1.opencodeReady = true) ∧
    (monStep cfg st).1.restartCount =
      st.restartCount + countOpcCrash (monStep cfg st).2.1 ∧
    (monStep cfg st).1.bridgeRestartCount =
      st.bridgeRestartCount + countBrCrash (monStep cfg st).2.1 ∧
    ((monStep cfg st).2.1.count Ev.spawnOpencode = 0 ∨
      ((monStep cfg st).2.1.count Ev.spawnOpencode = 1 ∧
        (monStep cfg st).1.restartCount = st.restartCount + 1 ∧
        (monStep cfg st).1.restartCount ≤ MAX_RESTARTS)) ∧
    ((monStep cfg st).2.1.count Ev.spawnBridge = 0 ∨
      ((monStep cfg st).2.1.count Ev.spawnBridge = 1 ∧
        (monStep cfg st).1.bridgeRestartCount = st.bridgeRestartCount + 1 ∧
        (monStep cfg st).1.bridgeRestartCount ≤ MAX_RESTARTS)) ∧
    (Ev.bridgeGracefulExit ∈ (monStep cfg st).2.1 →
      (monStep cfg st).2.2 = .brk ∧ (monStep cfg st).1.shutdownEvent = true ∧
      ∃ p, (monStep cfg st).2.1 = p ++ [Ev.bridgeGracefulExit, Ev.shutdownSet] ∧
        Ev.bridgeGracefulExit ∉ p) ∧
    (∀ e ∈ (monStep cfg st).2.1, isTermEv e = false) ∧
    (st.restartCount ≤ MAX_RESTARTS →
      (monStep cfg st).1.restartCount > MAX_RESTARTS →
      (monStep cfg st).1.shutdownEvent = true ∧
      (∃ m, Ev.fatalReport m ∈ (monStep cfg st).2.1) ∧
      (monStep cfg st).2.2 = .brk) ∧
    (st.bridgeRestartCount ≤ MAX_RESTARTS →
      (monStep cfg st).1.bridgeRestartCount > MAX_RESTARTS →
      (monStep cfg st).1.shutdownEvent = true ∧
      (∃ m, Ev.fatalReport m ∈ (monStep cfg st).2.1) ∧
      (monStep cfg st).2.2 = .brk) ∧
    ((monStep cfg st).2.2 = .brk → (monStep cfg st).1.shutdownEvent = true) := by
  obtain ⟨oNB, oRdy, oRC, oBRC, oCrB, oCntB, oCntO, oGr, oTerm, oCeil, oBrk, oBridge⟩ :=
    monStepOpc_spec cfg st
  rcases h1 : monStepOpc cfg st with ⟨st1, evs1, x1⟩
  rw [h1] at oNB oRdy oRC oBRC oCrB oCntB oCntO oGr oTerm oCeil oBrk oBridge
  simp only at oNB oRdy oRC oBRC oCrB oCntB oCntO oGr oTerm oCeil oBrk oBridge
  cases x1 with
  | contin =>
    obtain ⟨bNB, bFlags, bRdy, bGuard, bRC, bCrO, bBRC, bCntO, bCntB, bGr,
        bTerm, bCeil, bBrk⟩ := monStepBr_spec cfg st1
    rcases h2 : monStepBr cfg st1 with ⟨st2, evs2, x2⟩
    rw [h2] at bNB bRdy bGuard bRC bCrO bBRC bCntO bCntB bGr bTerm bCeil bBrk
    rw [h2] at bFlags
    simp only at bNB bRdy bGuard bRC bCrO bBRC bCntO bCntB bGr bTerm bCeil bBrk
    simp only [monStep, h1, h2]
    refine ⟨?_, ?_, ?_, ?_, ?_, ?_, ?_, ?_, ?_, ?_, ?_, ?_, ?_⟩
    · intro hr
      exact bNB ((oRdy hr).2.2 rfl)
    · intro hr
      obtain ⟨g1, f1, r1⟩ := oRdy hr
      rw [bridgeSpawnGuard_append, g1, f1, r1 rfl, Bool.true_and]
      exact bGuard (r1 rfl)
    · intro hr
      obtain ⟨g1, f1, r1⟩ := oRdy hr
      rw [flagsAfter_append, f1, bFlags, bRdy]
    · intro hr _
      rw [bRdy]
      exact (oRdy hr).2.2 rfl
    · simp only [countOpcCrash, List.countP_append] at *
      omega
    · simp only [countBrCrash, List.countP_append] at *
      omega
    · rw [List.count_append]
      rcases oCntO with h | ⟨h, h2, h3⟩
      · left
        omega
      · right
        refine ⟨by omega, by omega, by omega⟩
    · rw [List.count_append]
      rcases bCntB with h | ⟨h, h2, h3⟩
      · left
        omega
      · right
        refine ⟨by omega, by omega, by omega⟩
    · intro hg
      rcases List.mem_append.mp hg with h | h
      · exact absurd h oGr
      · obtain ⟨hx2, hsd, p, hsplit, hnp⟩ := bGr h
        refine ⟨hx2, hsd, evs1 ++ p, by rw [hsplit, List.append_assoc], ?_⟩
        rw [List.mem_append]
        rintro (hc | hc)
        · exact oGr hc
        · exact hnp hc
    · intro e he
      rcases List.mem_append.mp he with h | h
      · exact oTerm e h
      · exact bTerm e h
    · intro hle hgt
      rw [bRC] at hgt
      obtain ⟨_, _, hbrk⟩ := oCeil hle hgt
      simp at hbrk
    · intro hle hgt
      rw [← oBRC] at hle
      obtain ⟨hsd, ⟨m, hm⟩, hbrk⟩ := bCeil hle hgt
      exact ⟨hsd, ⟨m, List.mem_append.mpr (Or.inr hm)⟩, hbrk⟩
    · intro hx2
      exact bBrk hx2
  | brk =>
    simp only [monStep, h1]
    refine ⟨fun _ => by simp, fun hr => (oRdy hr).1, fun hr => (oRdy hr).2.1,
      fun hr h => absurd h (by simp),
      oRC, by rw [oCrB, oBRC]; omega, oCntO, by rw [oCntB]; omega,
      fun hg => absurd hg oGr, oTerm, ?_, ?_, fun _ => oBrk rfl⟩
    · intro hle hgt
      obtain ⟨hsd, hm, _⟩ := oCeil hle hgt
      exact ⟨hsd, hm, by trivial⟩
    · intro hle hgt
      rw [oBRC] at hgt
      omega
  | raised =>
    simp only [monStep, h1]
    refine ⟨fun _ => by simp, fun hr => (oRdy hr).1, fun hr => (oRdy hr).2.1,
      fun hr h => absurd h (by simp),
      oRC, by rw [oCrB, oBRC]; omega, oCntO, by rw [oCntB]; omega,
      fun hg => absurd hg oGr, oTerm, ?_, ?_, fun h => absurd h (by simp)⟩
    · intro hle hgt
      obtain ⟨hsd, hm, hbrk⟩ := oCeil hle hgt
      simp at hbrk
    · intro hle hgt
      rw [oBRC] at hgt
      omega
  | blocked => exact absurd rfl oNB

end BackgroundAgents

namespace BackgroundAgents

/-- Facts about the whole monitor loop, by induction over the
iteration inputs: with the ready latch set at entry it never blocks
and every bridge spawn happens under a succeeded probe and a set
latch; each spawn counter bounds its child's restarts; the counters
account exactly one increment per observed crash; crossing a ceiling
implies a fatal report and the shutdown latch; a graceful bridge exit
ends the trace with `[bridgeGracefulExit, shutdownSet]` (so the bridge
is never re-spawned after it) and sets the latch; and the monitor
performs no child-termination actions. -/
theorem monRun_spec (cfg : SupCfg) (obs : List MonIn) (st : SupSt) :
    (st.opencodeReady = true →
      (monRun cfg st obs).exit ≠ .blocked ∧
      bridgeSpawnGuard (true, true) (monRun cfg st obs).evs = true) ∧
    (monRun cfg st obs).evs.count Ev.spawnOpencode ≤
      MAX_RESTARTS - st.restartCount ∧
    (monRun cfg st obs).evs.count Ev.spawnBridge ≤
      MAX_RESTARTS - st.bridgeRestartCount ∧
    (monRun cfg st obs).st.restartCount =
      st.restartCount + countOpcCrash (monRun cfg st obs).evs ∧
    (monRun cfg st obs).st.bridgeRestartCount =
      st.bridgeRestartCount + countBrCrash (monRun cfg st obs).evs ∧
    (st.restartCount ≤ MAX_RESTARTS →
      (monRun cfg st obs).st.restartCount > MAX_RESTARTS →
      (monRun cfg st obs).st.shutdownEvent = true ∧
      ∃ m, Ev.fatalReport m ∈ (monRun cfg st obs).evs) ∧
    (st.bridgeRestartCount ≤ MAX_RESTARTS →
      (monRun cfg st obs).st.bridgeRestartCount > MAX_RESTARTS →
      (monRun cfg st obs).st.shutdownEvent = true ∧
      ∃ m, Ev.fatalReport m ∈ (monRun cfg st obs).evs) ∧
    (Ev.bridgeGracefulExit ∈ (monRun cfg st obs).evs →
      (monRun cfg st obs).st.shutdownEvent = true ∧
      ∃ p, (monRun cfg st obs).evs = p ++ [Ev.bridgeGracefulExit, Ev.shutdownSet] ∧
        Ev.bridgeGracefulExit ∉ p) ∧
    (∀ e ∈ (monRun cfg st obs).evs, isTermEv e = false) := by
  induction obs generalizing st with
  | nil =>
    refine ⟨fun _ => ⟨by simp [monRun], by simp [monRun, bridgeSpawnGuard]⟩,
      by simp [monRun], by simp [monRun], by simp [monRun, countOpcCrash],
      by simp [monRun, countBrCrash], ?_, ?_, by simp [monRun], by simp [monRun]⟩
    · intro h1 h2
      simp [monRun] at h2
      omega
    · intro h1 h2
      simp [monRun] at h2
      omega
  | cons ob rest ih =>
    obtain ⟨aRdy, aRC, aBRC, aShape⟩ := applyObs_spec st ob
    rcases h0 : applyObs st ob with ⟨st0, evs0⟩
    rw [h0] at aRdy aRC aBRC aShape
    simp only at aRdy aRC aBRC aShape
    have aCntO : evs0.count Ev.spawnOpencode = 0 := by
      rcases aShape with h | h <;> simp [h]
    have aCntB : evs0.count Ev.spawnBridge = 0 := by
      rcases aShape with h | h <;> simp [h]
    have aCrO : countOpcCrash evs0 = 0 := by
      rcases aShape with h | h <;> simp [h, countOpcCrash]
    have aCrB : countBrCrash evs0 = 0 := by
      rcases aShape with h | h <;> simp [h, countBrCrash]
    have aGr : Ev.bridgeGracefulExit ∉ evs0 := by
      rcases aShape with h | h <;> simp [h]
    have aFlags : ∀ pl, flagsAfter pl evs0 = pl := by
      intro pl
      rcases aShape with h | h <;> simp [h, flagsAfter, flagsStep]
    have aGuard : ∀ pl, bridgeSpawnGuard pl evs0 = true := by
      intro pl
      rcases aShape with h | h <;> simp [h, bridgeSpawnGuard, flagsStep]
    have aTerm : ∀ e ∈ evs0, isTermEv e = false := by
      intro e he
      rcases aShape with h | h <;> rw [h] at he <;> simp at he
      simp [he, isTermEv]
    by_cases hsd : st0.shutdownEvent = true
    · simp only [monRun, h0]
      rw [if_pos hsd]
      refine ⟨fun hr => ⟨by simp, aGuard _⟩, by simp [aCntO], by simp [aCntB],
        by simp [aRC, aCrO], by simp [aBRC, aCrB], ?_, ?_,
        fun hg => absurd hg aGr, aTerm⟩
      · intro h1 h2
        rw [aRC] at h2
        omega
      · intro h1 h2
        rw [aBRC] at h2
        omega
    · obtain ⟨mNB, mGuard, mFlags, mRdy, mRC, mBRC, mCntO, mCntB, mGr, mTerm,
          mCeil1, mCeil2, mBrk⟩ := monStep_spec cfg st0
      rcases h1 : monStep cfg st0 with ⟨st1, evs1, x1⟩
      rw [h1] at mNB mGuard mFlags mRdy mRC mBRC mCntO mCntB mGr mTerm mCeil1 mCeil2 mBrk
      simp only at mNB mGuard mFlags mRdy mRC mBRC mCntO mCntB mGr mTerm mCeil1 mCeil2 mBrk
      cases x1 with
      | contin =>
        obtain ⟨ih1, ih2, ih3, ih4, ih5, ih6, ih7, ih8, ih9⟩ := ih st1
        simp only [monRun, h0]
        rw [if_neg hsd]
        simp only [h1]
        refine ⟨?_, ?_, ?_, ?_, ?_, ?_, ?_, ?_, ?_⟩
        · intro hr
          have hr0 : st0.opencodeReady = true := by rw [aRdy, hr]
          have hr1 : st1.opencodeReady = true := mRdy hr0 rfl
          refine ⟨(ih1 hr1).1, ?_⟩
          simp only [bridgeSpawnGuard_append, flagsAfter_append, aGuard, aFlags,
            Bool.true_and]
          rw [mGuard hr0, Bool.true_and, mFlags hr0, hr1]
          exact (ih1 hr1).2
        · have := ih2
          rcases mCntO with h | ⟨h, he, hle⟩ <;>
            simp only [List.count_append, aCntO] <;> omega
        · have := ih3
          rcases mCntB with h | ⟨h, he, hle⟩ <;>
            simp only [List.count_append, aCntB] <;> omega
        · have := ih4
          simp only [countOpcCrash, List.countP_append] at *
          omega
        · have := ih5
          simp only [countBrCrash, List.countP_append] at *
          omega
        · intro hle hgt
          by_cases hcross : st1.restartCount > MAX_RESTARTS
          · obtain ⟨_, _, hbrk⟩ := mCeil1 (by omega) hcross
            simp at hbrk
          · obtain ⟨hsd2, m, hm⟩ := ih6 (by omega) hgt
            exact ⟨hsd2, m, by simp [hm]⟩
        · intro hle hgt
          by_cases hcross : st1.bridgeRestartCount > MAX_RESTARTS
          · obtain ⟨_, _, hbrk⟩ := mCeil2 (by omega) hcross
            simp at hbrk
          · obtain ⟨hsd2, m, hm⟩ := ih7 (by omega) hgt
            exact ⟨hsd2, m, by simp [hm]⟩
        · intro hg
          rcases List.mem_append.mp hg with h | h
          · rcases List.mem_append.mp h with h | h
            · exact absurd h aGr
            · obtain ⟨hbrk, _, _⟩ := mGr h
              simp at hbrk
          · obtain ⟨hsd2, p, hsplit, hnp⟩ := ih8 h
            refine ⟨hsd2, evs0 ++ evs1 ++ p, by simp [hsplit, List.append_assoc], ?_⟩
            simp only [List.mem_append]
            rintro ((hc | hc) | hc)
            · exact aGr hc
            · obtain ⟨hbrk, _, _⟩ := mGr hc
              simp at hbrk
            · exact hnp hc
        · intro e he
          rcases List.mem_append.mp he with h | h
          · rcases List.mem_append.mp h with h | h
            · exact aTerm e h
            · exact mTerm e h
          · exact ih9 e h
      | brk =>
        simp only [monRun, h0]
        rw [if_neg hsd]
        simp only [h1]
        refine ⟨?_, ?_, ?_, ?_, ?_, ?_, ?_, ?_, ?_⟩
        · intro hr
          have hr0 : st0.opencodeReady = true := by rw [aRdy, hr]
          refine ⟨by simp, ?_⟩
          rw [bridgeSpawnGuard_append, aGuard, aFlags, Bool.true_and]
          exact mGuard hr0
        · rcases mCntO with h | ⟨h, he, hle⟩ <;>
            simp only [List.count_append, aCntO] <;> omega
        · rcases mCntB with h | ⟨h, he, hle⟩ <;>
            simp only [List.count_append, aCntB] <;> omega
        · simp only [countOpcCrash, List.countP_append] at *
          omega
        · simp only [countBrCrash, List.countP_append] at *
          omega
        · intro hle hgt
          obtain ⟨hsd2, ⟨m, hm⟩, _⟩ := mCeil1 (by omega) hgt
          exact ⟨hsd2, m, by simp [hm]⟩
        · intro hle hgt
          obtain ⟨hsd2, ⟨m, hm⟩, _⟩ := mCeil2 (by omega) hgt
          exact ⟨hsd2, m, by simp [hm]⟩
        · intro hg
          rcases List.mem_append.mp hg with h | h
          · exact absurd h aGr
          · obtain ⟨_, hsd2, p, hsplit, hnp⟩ := mGr h
            refine ⟨hsd2, evs0 ++ p, by simp [hsplit], ?_⟩
            simp only [List.mem_append]
            rintro (hc | hc)
            · exact aGr hc
            · exact hnp hc
        · intro e he
          rcases List.mem_append.mp he with h | h
          · exact aTerm e h
          · exact mTerm e h
      | raised =>
        simp only [monRun, h0]
        rw [if_neg hsd]
        simp only [h1]
        refine ⟨?_, ?_, ?_, ?_, ?_, ?_, ?_, ?_, ?_⟩
        · intro hr
          have hr0 : st0.opencodeReady = true := by rw [aRdy, hr]
          refine ⟨by simp, ?_⟩
          rw [bridgeSpawnGuard_append, aGuard, aFlags, Bool.true_and]
          exact mGuard hr0
        · rcases mCntO with h | ⟨h, he, hle⟩ <;>
            simp only [List.count_append, aCntO] <;> omega
        · rcases mCntB with h | ⟨h, he, hle⟩ <;>
            simp only [List.count_append, aCntB] <;> omega
        · simp only [countOpcCrash, List.countP_append] at *
          omega
        · simp only [countBrCrash, List.countP_append] at *
          omega
        · intro hle hgt
          obtain ⟨_, _, hbrk⟩ := mCeil1 (by omega) hgt
          simp at hbrk
        · intro hle hgt
          obtain ⟨_, _, hbrk⟩ := mCeil2 (by omega) hgt
          simp at hbrk
        · intro hg
          rcases List.mem_append.mp hg with h | h
          · exact absurd h aGr
          · obtain ⟨hbrk, _, _⟩ := mGr h
            simp at hbrk
        · intro e he
          rcases List.mem_append.mp he with h | h
          · exact aTerm e h
          · exact mTerm e h
      | blocked =>
        simp only [monRun, h0]
        rw [if_neg hsd]
        simp only [h1]
        refine ⟨?_, ?_, ?_, ?_, ?_, ?_, ?_, ?_, ?_⟩
        · intro hr
          have hr0 : st0.opencodeReady = true := by rw [aRdy, hr]
          exact absurd rfl (mNB hr0)
        · rcases mCntO with h | ⟨h, he, hle⟩ <;>
            simp only [List.count_append, aCntO] <;> omega
        · rcases mCntB with h | ⟨h, he, hle⟩ <;>
            simp only [List.count_append, aCntB] <;> omega
        · simp only [countOpcCrash, List.countP_append] at *
          omega
        · simp only [countBrCrash, List.countP_append] at *
          omega
        · intro hle hgt
          obtain ⟨_, _, hbrk⟩ := mCeil1 (by omega) hgt
          simp at hbrk
        · intro hle hgt
          obtain ⟨_, _, hbrk⟩ := mCeil2 (by omega) hgt
          simp at hbrk
        · intro hg
          rcases List.mem_append.mp hg with h | h
          · exact absurd h aGr
          · obtain ⟨hbrk, _, _⟩ := mGr h
            simp at hbrk
        · intro e he
          rcases List.mem_append.mp he with h | h
          · exact aTerm e h
          · exact mTerm e h

end BackgroundAgents

namespace BackgroundAgents

/-- One `shutdown` block leaves the child with `returncode` set and
emits one of three action shapes. -/
theorem shutChild_spec (t : Bool) (c : Child) (d : Nat) (p : Option ProcSt) :
    procDone (shutChild t c d p).1 = true ∧
    ((shutChild t c d p).2 = [] ∨ (shutChild t c d p).2 = [Ev.termProc c d] ∨
      (shutChild t c d p).2 = [Ev.termProc c d, Ev.killProc c]) := by
  rcases p with _ | q
  · simp [shutChild, procDone]
  · cases q <;> by_cases ht : t = true <;> simp [shutChild, ht, procDone]

/-- Guard a concatenation from per-segment facts. -/
theorem bridgeSpawnGuard_append_of (pl pl2 : Bool × Bool) (a b : List Ev)
    (ha : bridgeSpawnGuard pl a = true) (hf : flagsAfter pl a = pl2)
    (hb : bridgeSpawnGuard pl2 b = true) :
    bridgeSpawnGuard pl (a ++ b) = true := by
  rw [bridgeSpawnGuard_append, ha, hf, hb, Bool.and_self]

/-- Facts about the `try` body of `run()`: it never blocks on the
ready latch; every bridge spawn in its trace is guarded by a
succeeded probe and the set latch; at most `MAX_RESTARTS + 1` spawns
of each child occur; and it performs no termination actions. -/
theorem runBody_spec (cfg : SupCfg) (s : RunScript) :
    (runBody cfg s).exit ≠ .blocked ∧
    bridgeSpawnGuard (false, false) (runBody cfg s).evs = true ∧
    (runBody cfg s).evs.count Ev.spawnOpencode ≤ MAX_RESTARTS + 1 ∧
    (runBody cfg s).evs.count Ev.spawnBridge ≤ MAX_RESTARTS + 1 ∧
    (∀ e ∈ (runBody cfg s).evs, isTermEv e = false) := by
  unfold runBody
  by_cases hg : s.gitRaises = true
  · simp [hg, bridgeSpawnGuard]
  · simp only [hg, Bool.false_eq_true, if_false, ite_false]
    obtain ⟨oNB, oFlags, oGuard, oRdy, oBr, oShut, oRC, oBRC, oCntO, oCntB,
        oTerm, _, _, _, _⟩ := startOpencode_spec cfg initSt
    rw [show initSt.opencodeReady = false from rfl] at oFlags oGuard
    rw [show initSt.restartCount = 0 from rfl] at oRC
    rw [show initSt.bridgeRestartCount = 0 from rfl] at oBRC
    have g0 : bridgeSpawnGuard (false, false) [Ev.gitSyncDone] = true := rfl
    have f0 : flagsAfter (false, false) [Ev.gitSyncDone] = (false, false) := rfl
    rcases hx4 : (startOpencode cfg initSt).exit with _ | _ | _
    · obtain ⟨bBlk, bFlags, bGuard, bRdy2, bOpc, bShut, bRC, bBRC, bCntO,
          bCntB, bTerm, _, _, _, _, bShape, bNR⟩ :=
        startBridge_spec cfg (startOpencode cfg initSt).st
      have hrdy : (startOpencode cfg initSt).st.opencodeReady = true := oRdy hx4
      rw [hrdy] at bFlags bGuard
      rcases hx5 : (startBridge cfg (startOpencode cfg initSt).st).exit with _ | _ | _
      · obtain ⟨r1, r2, r3, _, _, _, _, _, r9⟩ :=
          monRun_spec cfg s.monObs (startBridge cfg (startOpencode cfg initSt).st).st
        have hrdy2 : (startBridge cfg (startOpencode cfg initSt).st).st.opencodeReady = true := by
          rw [bRdy2, hrdy]
        obtain ⟨rNB, rGuard⟩ := r1 hrdy2
        have f4 : flagsAfter (false, false)
            ([Ev.gitSyncDone] ++ (startOpencode cfg initSt).evs) = (true, true) := by
          rw [flagsAfter_append, f0, oFlags, hrdy]
        have g4 : bridgeSpawnGuard (false, false)
            ([Ev.gitSyncDone] ++ (startOpencode cfg initSt).evs) = true :=
          bridgeSpawnGuard_append_of _ _ _ _ g0 f0 oGuard
        have f5 : flagsAfter (false, false)
            ([Ev.gitSyncDone] ++ (startOpencode cfg initSt).evs ++
              (startBridge cfg (startOpencode cfg initSt).st).evs) = (true, true) := by
          rw [flagsAfter_append, f4, bFlags]
        have g5 : bridgeSpawnGuard (false, false)
            ([Ev.gitSyncDone] ++ (startOpencode cfg initSt).evs ++
              (startBridge cfg (startOpencode cfg initSt).st).evs) = true :=
          bridgeSpawnGuard_append_of _ _ _ _ g4 f4 bGuard
        refine ⟨rNB, ?_, ?_, ?_, ?_⟩
        · exact bridgeSpawnGuard_append_of _ _ _ _ g5 f5 rGuard
        · rw [bRC, oRC] at r2
          simp only [List.count_append, List.count_cons, List.count_nil]
          rcases bShape with h | h <;> simp [h, oCntO] <;> omega
        · rw [bBRC, oBRC] at r3
          simp only [List.count_append, List.count_cons, List.count_nil]
          rcases bShape with h | h <;> simp [h, oCntB] <;> omega
        · intro e he
          simp only [List.append_assoc, List.mem_append, List.mem_cons,
            List.not_mem_nil, or_false] at he
          rcases he with h | h | h | h
          · simp [h, isTermEv]
          · exact oTerm e h
          · exact bTerm e h
          · exact r9 e h
      · exact absurd hx5 bNR
      · exact absurd (bBlk.mp hx5).2 (by simp [hrdy])
    · refine ⟨by simp, ?_, ?_, ?_, ?_⟩
      · exact bridgeSpawnGuard_append_of _ _ _ _ g0 f0 oGuard
      · simp [List.count_append, oCntO]
      · simp [List.count_append, oCntB]
      · intro e he
        simp only [List.mem_append, List.mem_cons, List.not_mem_nil, or_false] at he
        rcases he with h | h
        · simp [h, isTermEv]
        · exact oTerm e h
    · exact absurd hx4 oNB

/-- Facts about a whole `run()` invocation: it never ends blocked;
every bridge spawn is guarded; at most `MAX_RESTARTS + 1` spawns of
each child occur; after it returns both children have `returncode`
set; and its termination actions are exactly one bridge block (5 s
grace) followed by one OpenCode block (10 s grace). -/
theorem runSup_spec (cfg : SupCfg) (s : RunScript) :
    (runSup cfg s).exit ≠ .blocked ∧
    bridgeSpawnGuard (false, false) (runSup cfg s).evs = true ∧
    (runSup cfg s).evs.count Ev.spawnOpencode ≤ MAX_RESTARTS + 1 ∧
    (runSup cfg s).evs.count Ev.spawnBridge ≤ MAX_RESTARTS + 1 ∧
    procDone (runSup cfg s).st.opencode = true ∧
    procDone (runSup cfg s).st.bridge = true ∧
    (∃ tB tO, (runSup cfg s).evs.filter isTermEv = tB ++ tO ∧
      (tB = [] ∨ tB = [Ev.termProc .bridge 5] ∨
        tB = [Ev.termProc .bridge 5, Ev.killProc .bridge]) ∧
      (tO = [] ∨ tO = [Ev.termProc .opencode 10] ∨
        tO = [Ev.termProc .opencode 10, Ev.killProc .opencode])) := by
  obtain ⟨hNB, hGuard, hCntO, hCntB, hTerm⟩ := runBody_spec cfg s
  have hfilter : (runBody cfg s).evs.filter isTermEv = [] :=
    List.filter_eq_nil_iff.mpr (by intro e he; simp [hTerm e he])
  obtain ⟨c1B, c1S⟩ := shutChild_spec s.bridgeTermTimely .bridge 5 (runBody cfg s).st.bridge
  obtain ⟨c2B, c2S⟩ := shutChild_spec s.opcTermTimely .opencode 10 (runBody cfg s).st.opencode
  have hSguard : ∀ (l : List Ev) (pl : Bool × Bool),
      (l = [] ∨ l = [Ev.termProc Child.bridge 5] ∨
        l = [Ev.termProc Child.bridge 5, Ev.killProc Child.bridge]) ∨
      (l = [] ∨ l = [Ev.termProc Child.opencode 10] ∨
        l = [Ev.termProc Child.opencode 10, Ev.killProc Child.opencode]) →
      bridgeSpawnGuard pl l = true ∧ l.count Ev.spawnOpencode = 0 ∧
        l.count Ev.spawnBridge = 0 ∧ l.filter isTermEv = l := by
    intro l pl h
    rcases h with (h | h | h) | (h | h | h) <;>
      simp [h, bridgeSpawnGuard, flagsStep, isTermEv]
  rcases hx : (runBody cfg s).exit with _ | _ | _
  · have hrun : runSup cfg s =
        ⟨{ (runBody cfg s).st with
             bridge := (shutChild s.bridgeTermTimely .bridge 5 (runBody cfg s).st.bridge).1,
             opencode := (shutChild s.opcTermTimely .opencode 10 (runBody cfg s).st.opencode).1 },
          (runBody cfg s).evs ++
            ((shutChild s.bridgeTermTimely .bridge 5 (runBody cfg s).st.bridge).2 ++
              (shutChild s.opcTermTimely .opencode 10 (runBody cfg s).st.opencode).2),
          .normal⟩ := by
      simp only [runSup, hx]
      rfl
    rw [hrun]
    refine ⟨by simp, ?_, ?_, ?_, by simpa using c2B, by simpa using c1B, ?_⟩
    · exact bridgeSpawnGuard_append_of _ _ _ _ hGuard rfl
        (bridgeSpawnGuard_append_of _ _ _ _ (hSguard _ _ (Or.inl c1S)).1 rfl
          (hSguard _ _ (Or.inr c2S)).1)
    · have := (hSguard _ (false, false) (Or.inl c1S)).2.1
      have := (hSguard _ (false, false) (Or.inr c2S)).2.1
      simp only [List.count_append]
      omega
    · have := (hSguard _ (false, false) (Or.inl c1S)).2.2.1
      have := (hSguard _ (false, false) (Or.inr c2S)).2.2.1
      simp only [List.count_append]
      omega
    · refine ⟨(shutChild s.bridgeTermTimely .bridge 5 (runBody cfg s).st.bridge).2,
        (shutChild s.opcTermTimely .opencode 10 (runBody cfg s).st.opencode).2,
        ?_, c1S, c2S⟩
      rw [List.filter_append, hfilter, List.filter_append,
        (hSguard _ (false, false) (Or.inl c1S)).2.2.2,
        (hSguard _ (false, false) (Or.inr c2S)).2.2.2, List.nil_append]
  · have hrun : runSup cfg s =
        ⟨{ (runBody cfg s).st with
             bridge := (shutChild s.bridgeTermTimely .bridge 5 (runBody cfg s).st.bridge).1,
             opencode := (shutChild s.opcTermTimely .opencode 10 (runBody cfg s).st.opencode).1 },
          (runBody cfg s).evs ++ [Ev.fatalReport "supervisor.error"] ++
            ((shutChild s.bridgeTermTimely .bridge 5 (runBody cfg s).st.bridge).2 ++
              (shutChild s.opcTermTimely .opencode 10 (runBody cfg s).st.opencode).2),
          .normal⟩ := by
      simp only [runSup, hx]
      rfl
    rw [hrun]
    refine ⟨by simp, ?_, ?_, ?_, by simpa using c2B, by simpa using c1B, ?_⟩
    · refine bridgeSpawnGuard_append_of _ _ _ _ ?_ rfl
        (bridgeSpawnGuard_append_of _ _ _ _ (hSguard _ _ (Or.inl c1S)).1 rfl
          (hSguard _ _ (Or.inr c2S)).1)
      exact bridgeSpawnGuard_append_of _ _ _ _ hGuard rfl rfl
    · have h1 := (hSguard _ (false, false) (Or.inl c1S)).2.1
      have h2 := (hSguard _ (false, false) (Or.inr c2S)).2.1
      have hf0 : List.count Ev.spawnOpencode [Ev.fatalReport "supervisor.error"] = 0 := rfl
      simp only [List.count_append, h1, h2, hf0]
      omega
    · have h1 := (hSguard _ (false, false) (Or.inl c1S)).2.2.1
      have h2 := (hSguard _ (false, false) (Or.inr c2S)).2.2.1
      have hf0 : List.count Ev.spawnBridge [Ev.fatalReport "supervisor.error"] = 0 := rfl
      simp only [List.count_append, h1, h2, hf0]
      omega
    · refine ⟨(shutChild s.bridgeTermTimely .bridge 5 (runBody cfg s).st.bridge).2,
        (shutChild s.opcTermTimely .opencode 10 (runBody cfg s).st.opencode).2,
        ?_, c1S, c2S⟩
      rw [List.filter_append, List.filter_append, hfilter, List.nil_append,
        show List.filter isTermEv [Ev.fatalReport "supervisor.error"] = [] from rfl,
        List.filter_append,
        (hSguard _ (false, false) (Or.inl c1S)).2.2.2,
        (hSguard _ (false, false) (Or.inr c2S)).2.2.2, List.nil_append]
  · exact absurd hx hNB

end BackgroundAgents

namespace BackgroundAgents

/-! ## Local-mount monitor facts -/

/-- Local `start_opencode` touches neither latch-independent counters
nor the shutdown latch, spawns OpenCode once, and emits no bridge
spawn, crash observation, or fatal report. -/
theorem localStartOpencode_spec (cfg : LocalCfg) (st : SupSt) :
    (localStartOpencode cfg st).st.restartCount = st.restartCount ∧
    (localStartOpencode cfg st).st.bridgeRestartCount = st.bridgeRestartCount ∧
    (localStartOpencode cfg st).st.shutdownEvent = st.shutdownEvent ∧
    (localStartOpencode cfg st).evs.count Ev.spawnOpencode = 1 ∧
    (localStartOpencode cfg st).evs.count Ev.spawnBridge = 0 ∧
    countOpcCrash (localStartOpencode cfg st).evs = 0 ∧
    countBrCrash (localStartOpencode cfg st).evs = 0 ∧
    (∀ m, Ev.fatalReport m ∉ (localStartOpencode cfg st).evs) := by
  unfold localStartOpencode
  by_cases hsd : st.shutdownEvent = true <;>
    by_cases hp : cfg.probeOk st.probeCalls = true <;>
      simp [hsd, hp, countOpcCrash, countBrCrash, List.count_cons, List.count_nil]

/-- Local `start_bridge` spawns the bridge at most once and otherwise
changes no counter, no latch, and emits nothing else. -/
theorem localStartBridge_spec (cfg : LocalCfg) (st : SupSt) :
    (localStartBridge cfg st).st.restartCount = st.restartCount ∧
    (localStartBridge cfg st).st.bridgeRestartCount = st.bridgeRestartCount ∧
    (localStartBridge cfg st).st.shutdownEvent = st.shutdownEvent ∧
    (localStartBridge cfg st).evs.count Ev.spawnOpencode = 0 ∧
    (localStartBridge cfg st).evs.count Ev.spawnBridge ≤ 1 ∧
    countOpcCrash (localStartBridge cfg st).evs = 0 ∧
    countBrCrash (localStartBridge cfg st).evs = 0 ∧
    (∀ m, Ev.fatalReport m ∉ (localStartBridge cfg st).evs) := by
  unfold localStartBridge
  split_ifs <;>
    simp_all [countOpcCrash, countBrCrash, List.count_cons, List.count_nil]

/-- The local monitor's OpenCode branch: `opencode_restarts` grows by
exactly the number of crash observations it emits (one per observed
exit, any code); the bridge counter is untouched; a spawn happens only
with the incremented counter within the ceiling; no fatal report is
emitted and the shutdown latch is untouched. -/
theorem localMonStepOpc_spec (cfg : LocalCfg) (st : SupSt) :
    (localMonStepOpc cfg st).1.restartCount =
      st.restartCount + countOpcCrash (localMonStepOpc cfg st).2.1 ∧
    (localMonStepOpc cfg st).1.bridgeRestartCount = st.bridgeRestartCount ∧
    countBrCrash (localMonStepOpc cfg st).2.1 = 0 ∧
    (localMonStepOpc cfg st).2.1.count Ev.spawnBridge = 0 ∧
    ((localMonStepOpc cfg st).2.1.count Ev.spawnOpencode = 0 ∨
      ((localMonStepOpc cfg st).2.1.count Ev.spawnOpencode = 1 ∧
        (localMonStepOpc cfg st).1.restartCount = st.restartCount + 1 ∧
        (localMonStepOpc cfg st).1.restartCount ≤ MAX_RESTARTS)) ∧
    (∀ m, Ev.fatalReport m ∉ (localMonStepOpc cfg st).2.1) ∧
    (localMonStepOpc cfg st).1.shutdownEvent = st.shutdownEvent := by
  unfold localMonStepOpc
  rcases ho : st.opencode with _ | p
  · simp [countOpcCrash, countBrCrash]
  · cases p with
    | running => simp [countOpcCrash, countBrCrash]
    | exited code =>
      by_cases hrc : st.restartCount + 1 > MAX_RESTARTS
      · simp [hrc, countOpcCrash, countBrCrash, List.count_cons, List.count_nil,
          List.countP_cons, List.countP_nil]
      · simp only [hrc, if_false, ite_false]
        obtain ⟨sRC, sBRC, sShut, sCntO, sCntB, sCrO, sCrB, sFatal⟩ :=
          localStartOpencode_spec cfg
            { shutdownEvent := st.shutdownEvent, opencodeReady := false,
              opencode := some (ProcSt.exited code), bridge := st.bridge,
              restartCount := st.restartCount + 1,
              bridgeRestartCount := st.bridgeRestartCount,
              probeCalls := st.probeCalls }
        set o := localStartOpencode cfg
            { shutdownEvent := st.shutdownEvent, opencodeReady := false,
              opencode := some (ProcSt.exited code), bridge := st.bridge,
              restartCount := st.restartCount + 1,
              bridgeRestartCount := st.bridgeRestartCount,
              probeCalls := st.probeCalls } with hodef
        simp only at sRC sBRC sShut
        refine ⟨?_, ?_, ?_, ?_, ?_, ?_, ?_⟩
        · simp only [countOpcCrash] at sCrO ⊢
          simp [List.countP_append, List.countP_cons, sCrO, sRC]
        · simp [sBRC]
        · simp only [countBrCrash] at sCrB ⊢
          simp [List.countP_append, List.countP_cons, sCrB]
        · simp [List.count_append, List.count_cons, sCntB]
        · right
          refine ⟨?_, by simp [sRC], by simp [sRC]; omega⟩
          simp [List.count_append, List.count_cons, sCntO]
        · intro m
          simp [List.mem_append, sFatal m]
        · simp [sShut]

/-- The local monitor's bridge branch: `bridge_restarts` grows by
exactly the number of crash observations it emits — one per observed
exit, INCLUDING a zero exit code (there is no graceful-exit case);
the OpenCode counter is untouched; a spawn happens only with the
incremented counter within the ceiling; no fatal report is emitted
and the shutdown latch is untouched. -/
theorem localMonStepBr_spec (cfg : LocalCfg) (st : SupSt) :
    (localMonStepBr cfg st).1.bridgeRestartCount =
      st.bridgeRestartCount + countBrCrash (localMonStepBr cfg st).2.1 ∧
    (localMonStepBr cfg st).1.restartCount = st.restartCount ∧
    countOpcCrash (localMonStepBr cfg st).2.1 = 0 ∧
    (localMonStepBr cfg st).2.1.count Ev.spawnOpencode = 0 ∧
    ((localMonStepBr cfg st).2.1.count Ev.spawnBridge = 0 ∨
      ((localMonStepBr cfg st).2.1.count Ev.spawnBridge = 1 ∧
        (localMonStepBr cfg st).1.bridgeRestartCount = st.bridgeRestartCount + 1 ∧
        (localMonStepBr cfg st).1.bridgeRestartCount ≤ MAX_RESTARTS)) ∧
    (∀ m, Ev.fatalReport m ∉ (localMonStepBr cfg st).2.1) ∧
    (localMonStepBr cfg st).1.shutdownEvent = st.shutdownEvent := by
  unfold localMonStepBr
  rcases hb : st.bridge with _ | p
  · simp [countOpcCrash, countBrCrash]
  · cases p with
    | running => simp [countOpcCrash, countBrCrash]
    | exited code =>
      by_cases hrc : st.bridgeRestartCount + 1 > MAX_RESTARTS
      · simp [hrc, countOpcCrash, countBrCrash, List.count_cons, List.count_nil,
          List.countP_cons, List.countP_nil]
      · simp only [hrc, if_false, ite_false]
        obtain ⟨sRC, sBRC, sShut, sCntO, sCntB, sCrO, sCrB, sFatal⟩ :=
          localStartBridge_spec cfg
            { shutdownEvent := st.shutdownEvent, opencodeReady := st.opencodeReady,
              opencode := st.opencode, bridge := some (ProcSt.exited code),
              restartCount := st.restartCount,
              bridgeRestartCount := st.bridgeRestartCount + 1,
              probeCalls := st.probeCalls }
        set o := localStartBridge cfg
            { shutdownEvent := st.shutdownEvent, opencodeReady := st.opencodeReady,
              opencode := st.opencode, bridge := some (ProcSt.exited code),
              restartCount := st.restartCount,
              bridgeRestartCount := st.bridgeRestartCount + 1,
              probeCalls := st.probeCalls } with hodef
        simp only at sRC sBRC sShut
        refine ⟨?_, ?_, ?_, ?_, ?_, ?_, ?_⟩
        · simp only [countBrCrash] at sCrB ⊢
          simp [List.countP_append, List.countP_cons, sCrB, sBRC]
        · simp [sRC]
        · simp only [countOpcCrash] at sCrO ⊢
          simp [List.countP_append, List.countP_cons, sCrO]
        · simp [List.count_append, List.count_cons, sCntO]
        · rcases Nat.le_one_iff_eq_zero_or_eq_one.mp sCntB with h | h
          · left
            simp [List.count_append, List.count_cons, h]
          · right
            refine ⟨by simp [List.count_append, List.count_cons, h],
              by simp [sBRC], by simp [sBRC]; omega⟩
        · intro m
          simp [List.mem_append, sFatal m]
        · simp [sShut]

/-- Combined facts about one local monitor iteration body. -/
theorem localMonStep_spec (cfg : LocalCfg) (st : SupSt) :
    (localMonStep cfg st).1.restartCount =
      st.restartCount + countOpcCrash (localMonStep cfg st).2.1 ∧
    (localMonStep cfg st).1.bridgeRestartCount =
      st.bridgeRestartCount + countBrCrash (localMonStep cfg st).2.1 ∧
    ((localMonStep cfg st).2.1.count Ev.spawnOpencode = 0 ∨
      ((localMonStep cfg st).2.1.count Ev.spawnOpencode = 1 ∧
        (localMonStep cfg st).1.restartCount = st.restartCount + 1 ∧
        (localMonStep cfg st).1.restartCount ≤ MAX_RESTARTS)) ∧
    ((localMonStep cfg st).2.1.count Ev.spawnBridge = 0 ∨
      ((localMonStep cfg st).2.1.count Ev.spawnBridge = 1 ∧
        (localMonStep cfg st).1.bridgeRestartCount = st.bridgeRestartCount + 1 ∧
        (localMonStep cfg st).1.bridgeRestartCount ≤ MAX_RESTARTS)) ∧
    (∀ m, Ev.fatalReport m ∉ (localMonStep cfg st).2.1) ∧
    (localMonStep cfg st).1.shutdownEvent = st.shutdownEvent := by
  obtain ⟨oRC, oBRC, oCrB, oCntB, oCntO, oFatal, oShut⟩ := localMonStepOpc_spec cfg st
  rcases h1 : localMonStepOpc cfg st with ⟨st1, evs1, x1⟩
  rw [h1] at oRC oBRC oCrB oCntB oCntO oFatal oShut
  simp only at oRC oBRC oCrB oCntB oCntO oFatal oShut
  cases x1 with
  | contin =>
    obtain ⟨bBRC, bRC, bCrO, bCntO, bCntB, bFatal, bShut⟩ := localMonStepBr_spec cfg st1
    rcases h2 : localMonStepBr cfg st1 with ⟨st2, evs2, x2⟩
    rw [h2] at bBRC bRC bCrO bCntO bCntB bFatal bShut
    simp only at bBRC bRC bCrO bCntO bCntB bFatal bShut
    simp only [localMonStep, h1, h2]
    refine ⟨?_, ?_, ?_, ?_, ?_, ?_⟩
    · simp only [countOpcCrash, List.countP_append] at *
      omega
    · simp only [countBrCrash, List.countP_append] at *
      omega
    · rw [List.count_append]
      rcases oCntO with h | ⟨h, he, hle⟩
      · left
        omega
      · right
        refine ⟨by omega, by omega, by omega⟩
    · rw [List.count_append]
      rcases bCntB with h | ⟨h, he, hle⟩
      · left
        omega
      · right
        refine ⟨by omega, by omega, by omega⟩
    · intro m
      simp [List.mem_append, oFatal m, bFatal m]
    · rw [bShut, oShut]
  | brk =>
    simp only [localMonStep, h1]
    exact ⟨oRC, by rw [oCrB, oBRC]; omega, oCntO, by rw [oCntB]; omega, oFatal, oShut⟩
  | raised =>
    simp only [localMonStep, h1]
    exact ⟨oRC, by rw [oCrB, oBRC]; omega, oCntO, by rw [oCntB]; omega, oFatal, oShut⟩
  | blocked =>
    simp only [localMonStep, h1]
    exact ⟨oRC, by rw [oCrB, oBRC]; omega, oCntO, by rw [oCntB]; omega, oFatal, oShut⟩

/-- Facts about the whole local monitor loop: each counter grows by
exactly one per crash observation (one per observed exit of that
child, any exit code); each child is re-spawned at most
`MAX_RESTARTS` times; the loop never reports a fatal error; and it
never sets the shutdown latch on its own (only an observed signal
does). -/
theorem localMonRun_spec (cfg : LocalCfg) (obs : List MonIn) (st : SupSt) :
    (localMonRun cfg st obs).st.restartCount =
      st.restartCount + countOpcCrash (localMonRun cfg st obs).evs ∧
    (localMonRun cfg st obs).st.bridgeRestartCount =
      st.bridgeRestartCount + countBrCrash (localMonRun cfg st obs).evs ∧
    (localMonRun cfg st obs).evs.count Ev.spawnOpencode ≤
      MAX_RESTARTS - st.restartCount ∧
    (localMonRun cfg st obs).evs.count Ev.spawnBridge ≤
      MAX_RESTARTS - st.bridgeRestartCount ∧
    (∀ m, Ev.fatalReport m ∉ (localMonRun cfg st obs).evs) ∧
    ((∀ ob ∈ obs, ob.signal = false) →
      (localMonRun cfg st obs).st.shutdownEvent = st.shutdownEvent) := by
  induction obs generalizing st with
  | nil =>
    refine ⟨by simp [localMonRun, countOpcCrash], by simp [localMonRun, countBrCrash],
      by simp [localMonRun], by simp [localMonRun], by simp [localMonRun],
      fun _ => by simp [localMonRun]⟩
  | cons ob rest ih =>
    obtain ⟨aRdy, aRC, aBRC, aShape⟩ := applyObs_spec st ob
    rcases h0 : applyObs st ob with ⟨st0, evs0⟩
    rw [h0] at aRdy aRC aBRC aShape
    simp only at aRdy aRC aBRC aShape
    have aShut : ob.signal = false → st0.shutdownEvent = st.shutdownEvent := by
      intro hsig
      have h := applyObs_noSignal_shutdown st ob hsig
      rw [h0] at h
      exact h
    have aCntO : evs0.count Ev.spawnOpencode = 0 := by
      rcases aShape with h | h <;> simp [h]
    have aCntB : evs0.count Ev.spawnBridge = 0 := by
      rcases aShape with h | h <;> simp [h]
    have aCrO : countOpcCrash evs0 = 0 := by
      rcases aShape with h | h <;> simp [h, countOpcCrash]
    have aCrB : countBrCrash evs0 = 0 := by
      rcases aShape with h | h <;> simp [h, countBrCrash]
    have aFatal : ∀ m, Ev.fatalReport m ∉ evs0 := by
      intro m
      rcases aShape with h | h <;> simp [h]
    by_cases hsd : st0.shutdownEvent = true
    · simp only [localMonRun, h0]
      rw [if_pos hsd]
      refine ⟨by simp [aRC, aCrO], by simp [aBRC, aCrB], by simp [aCntO],
        by simp [aCntB], fun m => aFatal m, ?_⟩
      intro hsig
      rw [aShut (hsig ob (by simp))]
    · obtain ⟨mRC, mBRC, mCntO, mCntB, mFatal, mShut⟩ := localMonStep_spec cfg st0
      rcases h1 : localMonStep cfg st0 with ⟨st1, evs1, x1⟩
      rw [h1] at mRC mBRC mCntO mCntB mFatal mShut
      simp only at mRC mBRC mCntO mCntB mFatal mShut
      cases x1 with
      | contin =>
        obtain ⟨ih1, ih2, ih3, ih4, ih5, ih6⟩ := ih st1
        simp only [localMonRun, h0]
        rw [if_neg hsd]
        simp only [h1]
        refine ⟨?_, ?_, ?_, ?_, ?_, ?_⟩
        · simp only [countOpcCrash, List.countP_append] at *
          omega
        · simp only [countBrCrash, List.countP_append] at *
          omega
        · have := ih3
          rcases mCntO with h | ⟨h, he, hle⟩ <;>
            simp only [List.count_append, aCntO] <;> omega
        · have := ih4
          rcases mCntB with h | ⟨h, he, hle⟩ <;>
            simp only [List.count_append, aCntB] <;> omega
        · intro m
          simp [List.mem_append, aFatal m, mFatal m, ih5 m]
        · intro hsig
          rw [ih6 (fun q hq => hsig q (by simp [hq])), mShut,
            aShut (hsig ob (by simp))]
      | brk =>
        simp only [localMonRun, h0]
        rw [if_neg hsd]
        simp only [h1]
        refine ⟨?_, ?_, ?_, ?_, ?_, ?_⟩
        · simp only [countOpcCrash, List.countP_append] at *
          omega
        · simp only [countBrCrash, List.countP_append] at *
          omega
        · rcases mCntO with h | ⟨h, he, hle⟩ <;>
            simp only [List.count_append, aCntO] <;> omega
        · rcases mCntB with h | ⟨h, he, hle⟩ <;>
            simp only [List.count_append, aCntB] <;> omega
        · intro m
          simp [List.mem_append, aFatal m, mFatal m]
        · intro hsig
          rw [mShut, aShut (hsig ob (by simp))]
      | raised =>
        simp only [localMonRun, h0]
        rw [if_neg hsd]
        simp only [h1]
        refine ⟨?_, ?_, ?_, ?_, ?_, ?_⟩
        · simp only [countOpcCrash, List.countP_append] at *
          omega
        · simp only [countBrCrash, List.countP_append] at *
          omega
        · rcases mCntO with h | ⟨h, he, hle⟩ <;>
            simp only [List.count_append, aCntO] <;> omega
        · rcases mCntB with h | ⟨h, he, hle⟩ <;>
            simp only [List.count_append, aCntB] <;> omega
        · intro m
          simp [List.mem_append, aFatal m, mFatal m]
        · intro hsig
          rw [mShut, aShut (hsig ob (by simp))]
      | blocked =>
        simp only [localMonRun, h0]
        rw [if_neg hsd]
        simp only [h1]
        refine ⟨?_, ?_, ?_, ?_, ?_, ?_⟩
        · simp only [countOpcCrash, List.countP_append] at *
          omega
        · simp only [countBrCrash, List.countP_append] at *
          omega
        · rcases mCntO with h | ⟨h, he, hle⟩ <;>
            simp only [List.count_append, aCntO] <;> omega
        · rcases mCntB with h | ⟨h, he, hle⟩ <;>
            simp only [List.count_append, aCntB] <;> omega
        · intro m
          simp [List.mem_append, aFatal m, mFatal m]
        · intro hsig
          rw [mShut, aShut (hsig ob (by simp))]

/-! ## Theorems: Supervisor (claims C3, C4, C5, C6) -/

/-- A configuration with a control plane, a session id, and always
healthy probes. -/
def cfgT : SupCfg := ⟨true, true, fun _ => true⟩

/-- The local-mount variant's configuration with everything present
and always healthy probes. -/
def cfgL : LocalCfg := ⟨true, true, true, fun _ => true⟩

/-- A Supervisor run script with no monitor observations. -/
def sQuiet : RunScript := ⟨false, [], true, true⟩

/-- A run script whose bridge crashes once (exit code 1). -/
def sBrCrash : RunScript := ⟨false, [⟨false, none, some 1⟩], true, true⟩

/-- A monitoring state with both children running and the ready latch
set. -/
def stBoth : SupSt := ⟨false, true, some .running, some .running, 0, 0, 1⟩

/-- A monitoring state like `stBoth` with one prior bridge restart. -/
def stBoth1 : SupSt := ⟨false, true, some .running, some .running, 0, 1, 1⟩

/-- A monitoring state whose OpenCode handle just exited after the
counter reached `MAX_RESTARTS`. -/
def stCeil : SupSt := ⟨false, true, some (.exited 1), some .running, 5, 0, 1⟩

/-- C3 (counterexample).  In the runtime monitor a bridge exit with
code 0 is observed by the loop (the graceful-exit branch runs) yet
`bridge_restart_count` is NOT incremented, refuting "increases by
exactly one per observed exit of that child". -/
theorem C3_counterexample :
    Ev.bridgeGracefulExit ∈ (monRun cfgT stBoth [⟨false, none, some 0⟩]).evs ∧
    (monRun cfgT stBoth [⟨false, none, some 0⟩]).st.bridgeRestartCount =
      stBoth.bridgeRestartCount := by
  decide

/-- C3 (amended).  In the sandbox-runtime Supervisor's monitor, each
restart counter increases by exactly one per observed CRASH of its
child (any OpenCode exit; a non-zero bridge exit — a zero bridge exit
increments nothing and stops monitoring) and never decreases or
resets; once a counter exceeds `MAX_RESTARTS = 5` the Supervisor
reports a fatal error and sets the shutdown latch; and over a whole
run each child is spawned at most `MAX_RESTARTS + 1 = 6` times.  In
the local-mount variant each counter instead increases by exactly one
per observed exit of its child — including a bridge exit with code 0
— and never decreases; its monitor re-spawns each child at most
`MAX_RESTARTS` times and past the ceiling simply stops: it never
reports a fatal error and never sets the shutdown latch itself (only
an observed signal does). -/
theorem C3_restart_counters :
    (∀ (cfg : SupCfg) (s : RunScript),
      (runSup cfg s).evs.count Ev.spawnOpencode ≤ MAX_RESTARTS + 1 ∧
      (runSup cfg s).evs.count Ev.spawnBridge ≤ MAX_RESTARTS + 1) ∧
    (∀ (cfg : SupCfg) (st : SupSt) (obs : List MonIn),
      (monRun cfg st obs).st.restartCount =
        st.restartCount + countOpcCrash (monRun cfg st obs).evs ∧
      (monRun cfg st obs).st.bridgeRestartCount =
        st.bridgeRestartCount + countBrCrash (monRun cfg st obs).evs) ∧
    (∀ (cfg : SupCfg) (st : SupSt) (obs : List MonIn),
      st.restartCount ≤ MAX_RESTARTS →
      (monRun cfg st obs).st.restartCount > MAX_RESTARTS →
      (monRun cfg st obs).st.shutdownEvent = true ∧
      ∃ m, Ev.fatalReport m ∈ (monRun cfg st obs).evs) ∧
    (∀ (cfg : SupCfg) (st : SupSt) (obs : List MonIn),
      st.bridgeRestartCount ≤ MAX_RESTARTS →
      (monRun cfg st obs).st.bridgeRestartCount > MAX_RESTARTS →
      (monRun cfg st obs).st.shutdownEvent = true ∧
      ∃ m, Ev.fatalReport m ∈ (monRun cfg st obs).evs) ∧
    (∀ (cfg : LocalCfg) (st : SupSt) (obs : List MonIn),
      (localMonRun cfg st obs).st.restartCount =
        st.restartCount + countOpcCrash (localMonRun cfg st obs).evs ∧
      (localMonRun cfg st obs).st.bridgeRestartCount =
        st.bridgeRestartCount + countBrCrash (localMonRun cfg st obs).evs) ∧
    (∀ (cfg : LocalCfg) (st : SupSt) (obs : List MonIn),
      (localMonRun cfg st obs).evs.count Ev.spawnOpencode ≤
        MAX_RESTARTS - st.restartCount ∧
      (localMonRun cfg st obs).evs.count Ev.spawnBridge ≤
        MAX_RESTARTS - st.bridgeRestartCount) ∧
    (∀ (cfg : LocalCfg) (st : SupSt) (obs : List MonIn) (m : String),
      Ev.fatalReport m ∉ (localMonRun cfg st obs).evs) ∧
    (∀ (cfg : LocalCfg) (st : SupSt) (obs : List MonIn),
      (∀ ob ∈ obs, ob.signal = false) →
      (localMonRun cfg st obs).st.shutdownEvent = st.shutdownEvent) ∧
    (localMonRun cfgL stBoth1 [⟨false, none, some 0⟩]).st.bridgeRestartCount =
      stBoth1.bridgeRestartCount + 1 := by
  refine ⟨fun cfg s => ⟨(runSup_spec cfg s).2.2.1, (runSup_spec cfg s).2.2.2.1⟩,
    fun cfg st obs => ?_, fun cfg st obs => ?_, fun cfg st obs => ?_,
    fun cfg st obs => ?_, fun cfg st obs => ?_, fun cfg st obs m => ?_,
    fun cfg st obs => ?_, by decide⟩
  · exact ⟨(monRun_spec cfg obs st).2.2.2.1, (monRun_spec cfg obs st).2.2.2.2.1⟩
  · exact (monRun_spec cfg obs st).2.2.2.2.2.1
  · exact (monRun_spec cfg obs st).2.2.2.2.2.2.1
  · exact ⟨(localMonRun_spec cfg obs st).1, (localMonRun_spec cfg obs st).2.1⟩
  · exact ⟨(localMonRun_spec cfg obs st).2.2.1, (localMonRun_spec cfg obs st).2.2.2.1⟩
  · exact (localMonRun_spec cfg obs st).2.2.2.2.1 m
  · exact (localMonRun_spec cfg obs st).2.2.2.2.2

/-- Witness for C3: a sixth OpenCode crash (counter already at 5)
makes the runtime monitor set the shutdown latch; a concrete full run
spawns OpenCode at most 6 times; and the local monitor leaves the
shutdown latch alone across a signal-free iteration that observes a
zero bridge exit. -/
theorem C3_witness :
    (monRun cfgT stCeil [⟨false, none, none⟩]).st.shutdownEvent = true ∧
    (runSup cfgT sQuiet).evs.count Ev.spawnOpencode ≤ MAX_RESTARTS + 1 ∧
    (localMonRun cfgL stBoth [⟨false, none, some 0⟩]).st.shutdownEvent =
      stBoth.shutdownEvent :=
  ⟨(C3_restart_counters.2.2.1 cfgT stCeil [⟨false, none, none⟩]
      (by decide) (by decide)).1,
   (C3_restart_counters.1 cfgT sQuiet).1,
   C3_restart_counters.2.2.2.2.2.2.2.1 cfgL stBoth [⟨false, none, some 0⟩]
     (by decide)⟩

/-- C4 (counterexample).  The local-mount Supervisor variant restarts
the bridge on ANY exit, including code 0: after observing a zero
bridge exit it re-spawns the bridge and does not set the shutdown
latch, refuting the claim for that variant. -/
theorem C4_counterexample :
    Ev.spawnBridge ∈ (localMonRun cfgL stBoth [⟨false, none, some 0⟩]).evs ∧
    (localMonRun cfgL stBoth [⟨false, none, some 0⟩]).st.shutdownEvent = false := by
  decide

/-- C4 (amended).  In the runtime (sandbox-runtime) Supervisor, a
bridge exit with code 0 observed during monitoring sets the shutdown
latch and the monitor stops immediately — the trace ends with the
graceful-exit observation followed by `shutdownSet`, so the bridge is
never re-spawned after that observation.  (The local-mount variant
instead treats a zero exit like a crash and restarts the bridge.) -/
theorem C4_graceful_bridge_exit (cfg : SupCfg) (st : SupSt) (obs : List MonIn)
    (hg : Ev.bridgeGracefulExit ∈ (monRun cfg st obs).evs) :
    (monRun cfg st obs).st.shutdownEvent = true ∧
    ∃ p, (monRun cfg st obs).evs = p ++ [Ev.bridgeGracefulExit, Ev.shutdownSet] ∧
      Ev.bridgeGracefulExit ∉ p :=
  (monRun_spec cfg obs st).2.2.2.2.2.2.2.1 hg

/-- Witness for C4 at a concrete graceful bridge exit. -/
theorem C4_witness :
    (monRun cfgT stBoth1 [⟨false, none, some 0⟩]).st.shutdownEvent = true :=
  (C4_graceful_bridge_exit cfgT stBoth1 [⟨false, none, some 0⟩] (by decide)).1

/-- C5.  In no execution of the Supervisor — initial startup or any
bridge restart — is the bridge spawned before the agent's health
probe has succeeded and the `opencode_ready` latch is set: a run never
ends blocked on the ready latch, and every `spawnBridge` event in its
trace occurs while both the probe-succeeded flag and the latch flag
are set (flags that only a `healthOk`/`readySet` pair sets and
`readyClear` clears). -/
theorem C5_bridge_spawn_after_ready (cfg : SupCfg) (s : RunScript) :
    (runSup cfg s).exit ≠ .blocked ∧
    bridgeSpawnGuard (false, false) (runSup cfg s).evs = true :=
  ⟨(runSup_spec cfg s).1, (runSup_spec cfg s).2.1⟩

/-- Witness for C5 on a run whose bridge crashes and is re-spawned. -/
theorem C5_witness :
    bridgeSpawnGuard (false, false) (runSup cfgT sBrCrash).evs = true :=
  (C5_bridge_spawn_after_ready cfgT sBrCrash).2

/-- C6.  On every exit path of `run()` — normal monitor termination,
signal-triggered shutdown, or an exception caught at the `run()`
boundary — the shutdown sequence runs: the trace's termination
actions are exactly one bridge block (terminate with a 5 s wait, kill
only on timeout) followed by one OpenCode block (10 s wait, kill on
timeout), and after `run()` returns both child handles are absent or
have `returncode` set. -/
theorem C6_shutdown_reaps_children (cfg : SupCfg) (s : RunScript) :
    procDone (runSup cfg s).st.opencode = true ∧
    procDone (runSup cfg s).st.bridge = true ∧
    (∃ tB tO, (runSup cfg s).evs.filter isTermEv = tB ++ tO ∧
      (tB = [] ∨ tB = [Ev.termProc .bridge 5] ∨
        tB = [Ev.termProc .bridge 5, Ev.killProc .bridge]) ∧
      (tO = [] ∨ tO = [Ev.termProc .opencode 10] ∨
        tO = [Ev.termProc .opencode 10, Ev.killProc .opencode])) :=
  ⟨(runSup_spec cfg s).2.2.2.2.1, (runSup_spec cfg s).2.2.2.2.2.1,
   (runSup_spec cfg s).2.2.2.2.2.2⟩

end BackgroundAgents
